import Mathlib

/-!
Shallow embedding of the DRAIN provider-side payment-channel engine
(voucher validation, channel ledger, claim submission, claim scheduling,
JSON-file voucher storage) of the Handshake58 repository, together with
proofs of the specified properties.

Sources embedded:
* `providers/community-taostats/src/drain.ts` — `DrainService.validateVoucher`,
  `DrainService.storeVoucher`, `claimPayments`, `claimExpiring`,
  `handleClaimError`;
* the voucher storage module (`VoucherStorage`): `storeVoucher`, `getChannel`,
  `updateChannel`, `getHighestVoucherPerChannel`, `markClaimed`,
  `getTotalUnclaimed`, `load`/`save` serialization;
* the protocol constants module: `PERMANENT_CLAIM_ERRORS`.

Modelling conventions: JavaScript `bigint` values are `Int`; JS `number`
timestamps are `Int`; addresses, channel ids, tx hashes and signatures are
`String`; the on-chain reads (`getChannel`, `getBalance`) and the wallet
write (`claim`) are passed in as explicit oracle arguments; EIP-712
signature verification is an explicit boolean argument (its cryptographic
content is outside the embedding).  In-place mutation of objects held by
the storage maps is modelled by returning the updated storage value.
`Date.now()` is an explicit `now` argument.  The string→bigint parsing of
the voucher header (`BigInt(voucher.amount)`) is taken as already done:
voucher `amount`/`nonce` enter the validator as `Int`.
-/

namespace HS58

/-- Result of the on-chain `getChannel` read (the fields `validateVoucher`
uses: consumer, provider, deposit, expiry). -/
structure ChannelData where
  consumer : String
  provider : String
  deposit : Int
  expiry : Int
deriving Repr, DecidableEq

/-- Parsed `X-DRAIN-Voucher` header, after the `BigInt` conversions of
`amount` and `nonce` performed at the top of `validateVoucher`. -/
structure VoucherHeader where
  channelId : String
  amount : Int
  nonce : Int
  signature : String
deriving Repr, DecidableEq

/-- Stored voucher with metadata (`StoredVoucher` of the types module). -/
structure StoredVoucher where
  channelId : String
  amount : Int
  nonce : Int
  signature : String
  consumer : String
  receivedAt : Int
  claimed : Bool
  claimedAt : Option Int
  claimTxHash : Option String
deriving Repr, DecidableEq

/-- Channel state tracked by the provider (`ChannelState` of the types
module).  The optional TS field `expiry` being absent/zero is modelled as
`expiry = 0` (both are falsy in the `!channelState.expiry` test). -/
structure ChannelState where
  channelId : String
  consumer : String
  deposit : Int
  totalCharged : Int
  expiry : Int
  lastVoucher : Option StoredVoucher
  createdAt : Int
  lastActivityAt : Int
deriving Repr, DecidableEq

/-- In-memory storage document of `VoucherStorage` (`StorageData`): the
voucher list plus the channel map.  The JS object `channels` is an
insertion-ordered string-keyed map, modelled as an association list. -/
structure StorageData where
  vouchers : List StoredVoucher
  channels : List (String × ChannelState)
  totalEarned : String
  totalClaimed : String
deriving Repr, DecidableEq

namespace Storage

/-- Key update for the `channels` object: assigning to an existing key
keeps its position, assigning a fresh key appends. -/
def assocSet (l : List (String × ChannelState)) (k : String) (v : ChannelState) :
    List (String × ChannelState) :=
  match l with
  | [] => [(k, v)]
  | (k', v') :: t => if k' == k then (k, v) :: t else (k', v') :: assocSet t k v

/-- `VoucherStorage.getChannel`: `this.data.channels[channelId] ?? null`. -/
def getChannel (d : StorageData) (channelId : String) : Option ChannelState :=
  d.channels.lookup channelId

/-- `VoucherStorage.updateChannel`: `this.data.channels[channelId] = state`. -/
def updateChannel (d : StorageData) (channelId : String) (state : ChannelState) :
    StorageData :=
  { d with channels := assocSet d.channels channelId state }

/-- `VoucherStorage.storeVoucher`: `this.data.vouchers.push(voucher)`. -/
def storeVoucher (d : StorageData) (voucher : StoredVoucher) : StorageData :=
  { d with vouchers := d.vouchers ++ [voucher] }

/-- JS `Map.set` used by `getHighestVoucherPerChannel`: replacing an
existing key keeps its insertion position, a fresh key is appended. -/
def mapSet (l : List (String × StoredVoucher)) (k : String) (v : StoredVoucher) :
    List (String × StoredVoucher) :=
  match l with
  | [] => [(k, v)]
  | (k', v') :: t => if k' == k then (k, v) :: t else (k', v') :: mapSet t k v

/-- One step of the loop body of `getHighestVoucherPerChannel`. -/
def highestStep (acc : List (String × StoredVoucher)) (voucher : StoredVoucher) :
    List (String × StoredVoucher) :=
  if voucher.claimed = true then acc
  else
    match acc.lookup voucher.channelId with
    | none => mapSet acc voucher.channelId voucher
    | some existing =>
        if voucher.amount > existing.amount then mapSet acc voucher.channelId voucher
        else acc

/-- `VoucherStorage.getHighestVoucherPerChannel`: highest unclaimed voucher
per channel, as the insertion-ordered map the JS loop builds. -/
def getHighestVoucherPerChannel (d : StorageData) : List (String × StoredVoucher) :=
  d.vouchers.foldl highestStep []

/-- Update applied by `markClaimed` to a single stored voucher. -/
def markVoucher (channelId : String) (txHash : String) (now : Int)
    (v : StoredVoucher) : StoredVoucher :=
  if v.channelId = channelId ∧ v.claimed = false then
    { v with claimed := true, claimedAt := some now, claimTxHash := some txHash }
  else v

/-- `VoucherStorage.markClaimed`: sets `claimed`, `claimedAt`, `claimTxHash`
on every unclaimed voucher of the channel. -/
def markClaimed (d : StorageData) (channelId : String) (txHash : String)
    (now : Int) : StorageData :=
  { d with vouchers := d.vouchers.map (markVoucher channelId txHash now) }

/-- `VoucherStorage.getTotalUnclaimed`: sum of the highest unclaimed voucher
amounts over all channels. -/
def getTotalUnclaimed (d : StorageData) : Int :=
  ((getHighestVoucherPerChannel d).map (fun p => p.2.amount)).sum

/-- Every stored voucher of channel `ch` is claimed (the channel is fully
dead-lettered or settled and no longer appears in any claim pass). -/
def AllClaimed (d : StorageData) (ch : String) : Prop :=
  ∀ v ∈ d.vouchers, v.channelId = ch → v.claimed = true

end Storage

/-- The zero consumer address that marks a non-existent channel. -/
def zeroAddress : String := "0x0000000000000000000000000000000000000000"

/-- JS `String.prototype.toLowerCase` on addresses (per-character lowercase;
addresses are ASCII hex strings). -/
def jsToLower (s : String) : String := String.mk (s.data.map Char.toLower)

/-- `PERMANENT_CLAIM_ERRORS` from the constants module. -/
def PERMANENT_CLAIM_ERRORS : List String :=
  ["InvalidAmount", "ChannelNotFound", "InvalidSignature", "NotProvider", "NotExpired"]

/-- Typed rejection reasons returned by `validateVoucher`. -/
inductive VError where
  | channel_not_found
  | wrong_provider
  | insufficient_funds
  | exceeds_deposit
  | invalid_nonce
  | invalid_signature
deriving Repr, DecidableEq

/-- Result object of `validateVoucher`
(`{ valid, error?, channel?, newTotal? }`). -/
structure VResult where
  valid : Bool
  error : Option VError
  channel : Option ChannelState
  newTotal : Option Int
deriving Repr, DecidableEq

namespace Drain

/-- Channel-state hydration inside `validateVoucher`: a channel absent from
storage gets a fresh in-memory state seeded from the chain read (not yet
persisted); a cached state with a falsy `expiry` has its `expiry`
backfilled from the chain read, which mutates the stored object in place
(modelled by the returned updated storage). -/
def hydrate (channelData : ChannelData) (d : StorageData) (channelId : String)
    (now : Int) : ChannelState × StorageData :=
  match Storage.getChannel d channelId with
  | none =>
      ({ channelId := channelId
         consumer := channelData.consumer
         deposit := channelData.deposit
         totalCharged := 0
         expiry := channelData.expiry
         lastVoucher := none
         createdAt := now
         lastActivityAt := now }, d)
  | some cs =>
      if cs.expiry = 0 then
        let cs' := { cs with expiry := channelData.expiry }
        (cs', Storage.updateChannel d channelId cs')
      else (cs, d)

/-- Replay/ordering check of `validateVoucher`:
`channelState.lastVoucher && nonce <= channelState.lastVoucher.nonce`. -/
def staleNonce (lastVoucher : Option StoredVoucher) (nonce : Int) : Prop :=
  match lastVoucher with
  | some lv => nonce ≤ lv.nonce
  | none => False

instance (lastVoucher : Option StoredVoucher) (nonce : Int) :
    Decidable (staleNonce lastVoucher nonce) :=
  match lastVoucher with
  | some lv => (inferInstance : Decidable (nonce ≤ lv.nonce))
  | none => isFalse (fun h => h)

/-- `DrainService.validateVoucher`.  `selfAddress` is
`this.account.address`; `channelData` is the result of the on-chain
`getChannel` read; `sigOk` is the result of `verifyTypedData` on the
voucher's fields; `now` is `Date.now()`.  Returns the result object
together with the storage (updated exactly when hydration backfilled a
missing `expiry` on a cached channel state). -/
def validateVoucher (selfAddress : String) (channelData : ChannelData)
    (d : StorageData) (sigOk : Bool) (voucher : VoucherHeader)
    (requiredAmount : Int) (now : Int) : VResult × StorageData :=
  if channelData.consumer = zeroAddress then
    ({ valid := false, error := some .channel_not_found, channel := none, newTotal := none }, d)
  else if jsToLower channelData.provider ≠ jsToLower selfAddress then
    ({ valid := false, error := some .wrong_provider, channel := none, newTotal := none }, d)
  else
    let h := hydrate channelData d voucher.channelId now
    let channelState := h.1
    let d' := h.2
    let expectedTotal := channelState.totalCharged + requiredAmount
    if voucher.amount < expectedTotal then
      ({ valid := false, error := some .insufficient_funds,
         channel := some channelState, newTotal := none }, d')
    else if voucher.amount > channelData.deposit then
      ({ valid := false, error := some .exceeds_deposit,
         channel := some channelState, newTotal := none }, d')
    else if staleNonce channelState.lastVoucher voucher.nonce then
      ({ valid := false, error := some .invalid_nonce,
         channel := some channelState, newTotal := none }, d')
    else if sigOk = false then
      ({ valid := false, error := some .invalid_signature,
         channel := none, newTotal := none }, d')
    else
      ({ valid := true, error := none,
         channel := some channelState, newTotal := some voucher.amount }, d')

/-- The `StoredVoucher` record built at the top of
`DrainService.storeVoucher`. -/
def mkStored (voucher : VoucherHeader) (consumer : String) (now : Int) :
    StoredVoucher :=
  { channelId := voucher.channelId
    amount := voucher.amount
    nonce := voucher.nonce
    signature := voucher.signature
    consumer := consumer
    receivedAt := now
    claimed := false
    claimedAt := none
    claimTxHash := none }

/-- `DrainService.storeVoucher` (the commit step): builds the
`StoredVoucher`, adds `cost` to the channel's `totalCharged`, records the
voucher as `lastVoucher`, then persists the voucher and the channel
state. -/
def storeVoucher (d : StorageData) (voucher : VoucherHeader)
    (channelState : ChannelState) (cost : Int) (now : Int) : StorageData :=
  let stored := mkStored voucher channelState.consumer now
  let cs' := { channelState with
      totalCharged := channelState.totalCharged + cost
      lastVoucher := some stored
      lastActivityAt := now }
  Storage.updateChannel (Storage.storeVoucher d stored) voucher.channelId cs'

/-- `DrainService.handleClaimError`: a failure whose named error is in
`PERMANENT_CLAIM_ERRORS` dead-letters the channel's vouchers
(`markClaimed` with the null tx reference `"0x0"`); any other failure
leaves storage untouched so the voucher is retried later.  `errorName`
models `error?.cause?.data?.errorName || error?.cause?.reason ||
undefined`. -/
def handleClaimError (d : StorageData) (channelId : String)
    (errorName : Option String) (now : Int) : StorageData :=
  match errorName with
  | some n =>
      if PERMANENT_CLAIM_ERRORS.contains n then Storage.markClaimed d channelId "0x0" now
      else d
  | none => d

/-- Loop body of `claimPayments` for one `(channelId, voucher)` entry of
the highest-voucher map.  `getBalance` models the on-chain `getBalance`
read (`none` = the read threw, in which case the code proceeds with the
claim); `writeClaim` models the wallet `claim` transaction, returning the
tx hash or a failure with an optional named contract error.  The
accumulator carries the storage and the list of `(channelId, txHash)`
pairs produced so far. -/
def claimStep (claimThreshold : Int) (forceAll : Bool)
    (getBalance : String → Option Int)
    (writeClaim : String → Int → Int → String → Except (Option String) String)
    (now : Int) (acc : StorageData × List (String × String))
    (entry : String × StoredVoucher) : StorageData × List (String × String) :=
  let channelId := entry.1
  let voucher := entry.2
  if forceAll = false ∧ voucher.amount < claimThreshold then acc
  else if getBalance voucher.channelId = some 0 then
    (Storage.markClaimed acc.1 channelId "0x0" now, acc.2)
  else
    match writeClaim voucher.channelId voucher.amount voucher.nonce voucher.signature with
    | .ok hash => (Storage.markClaimed acc.1 channelId hash now, acc.2 ++ [(channelId, hash)])
    | .error errorName => (handleClaimError acc.1 channelId errorName now, acc.2)

/-- `DrainService.claimPayments`: walks the highest unclaimed voucher per
channel, skips entries below the claim threshold unless `forceAll`,
no-ops channels whose on-chain balance is already zero (marking them
claimed), submits a claim for the rest and marks the channel claimed on
success; claim failures go through `handleClaimError`.  Returns the final
storage and the claim transactions as `(channelId, txHash)` pairs (the
code pushes each `hash` while processing exactly that channel). -/
def claimPayments (claimThreshold : Int)
    (getBalance : String → Option Int)
    (writeClaim : String → Int → Int → String → Except (Option String) String)
    (now : Int) (d : StorageData) (forceAll : Bool) :
    StorageData × List (String × String) :=
  (Storage.getHighestVoucherPerChannel d).foldl
    (claimStep claimThreshold forceAll getBalance writeClaim now) (d, [])

/-- Loop body of `claimExpiring` for one `(channelId, voucher)` entry:
channels without a cached state or with a falsy cached `expiry` are
skipped, channels with more than `bufferSeconds` left are skipped, a
non-positive voucher amount is skipped; otherwise the claim proceeds as in
`claimPayments` but with no threshold check. -/
def claimExpiringStep (bufferSeconds : Int)
    (getBalance : String → Option Int)
    (writeClaim : String → Int → Int → String → Except (Option String) String)
    (now : Int) (acc : StorageData × List (String × String))
    (entry : String × StoredVoucher) : StorageData × List (String × String) :=
  let channelId := entry.1
  let voucher := entry.2
  match Storage.getChannel acc.1 channelId with
  | none => acc
  | some channel =>
      if channel.expiry = 0 then acc
      else if channel.expiry - now > bufferSeconds then acc
      else if voucher.amount ≤ 0 then acc
      else if getBalance voucher.channelId = some 0 then
        (Storage.markClaimed acc.1 channelId "0x0" now, acc.2)
      else
        match writeClaim voucher.channelId voucher.amount voucher.nonce voucher.signature with
        | .ok hash => (Storage.markClaimed acc.1 channelId hash now, acc.2 ++ [(channelId, hash)])
        | .error errorName => (handleClaimError acc.1 channelId errorName now, acc.2)

/-- `DrainService.claimExpiring`: one auto-claim scheduler pass with expiry
buffer `bufferSeconds`; `now` is the current unix time. -/
def claimExpiring (bufferSeconds : Int)
    (getBalance : String → Option Int)
    (writeClaim : String → Int → Int → String → Except (Option String) String)
    (now : Int) (d : StorageData) : StorageData × List (String × String) :=
  (Storage.getHighestVoucherPerChannel d).foldl
    (claimExpiringStep bufferSeconds getBalance writeClaim now) (d, [])

/-- One validate-then-commit round as performed by the caller-facing
contract: validate the voucher against the current storage and, on
acceptance, commit via `DrainService.storeVoucher` with the returned
channel state and the round's cost (equal to the `requiredAmount` the
accepting validation was given).  A rejected round leaves only whatever
the validation itself did to storage. -/
def vcRound (selfAddress : String) (channelData : ChannelData) (sigOk : Bool)
    (now : Int) (d : StorageData) (round : VoucherHeader × Int) : StorageData :=
  let r := validateVoucher selfAddress channelData d sigOk round.1 round.2 now
  if r.1.valid = true then
    match r.1.channel with
    | some ch => storeVoucher r.2 round.1 ch round.2 now
    | none => r.2
  else r.2

/-- Runs a sequence of validate-then-commit rounds. -/
def runRounds (selfAddress : String) (channelData : ChannelData) (sigOk : Bool)
    (now : Int) : StorageData → List (VoucherHeader × Int) → StorageData
  | d, [] => d
  | d, r :: rs =>
      runRounds selfAddress channelData sigOk now
        (vcRound selfAddress channelData sigOk now d r) rs

/-- Holds when every round of the sequence is accepted by the validation
it is given (each validation sees the storage left by the rounds before
it). -/
def allAccepted (selfAddress : String) (channelData : ChannelData) (sigOk : Bool)
    (now : Int) : StorageData → List (VoucherHeader × Int) → Bool
  | _, [] => true
  | d, r :: rs =>
      (validateVoucher selfAddress channelData d sigOk r.1 r.2 now).1.valid &&
      allAccepted selfAddress channelData sigOk now
        (vcRound selfAddress channelData sigOk now d r) rs

/-- Channel-ledger invariant for one channel `cid`, relative to the chain
view `channelData`: the stored `totalCharged` (0 when the channel is not
yet stored) equals `t`, and once a `lastVoucher` is recorded its amount is
at least `t` and at most the on-chain deposit. -/
def LedgerInv (channelData : ChannelData) (cid : String) (d : StorageData)
    (t : Int) : Prop :=
  match Storage.getChannel d cid with
  | none => t = 0
  | some cs =>
      cs.totalCharged = t ∧
      (∀ lv, cs.lastVoucher = some lv →
        t ≤ lv.amount ∧ lv.amount ≤ channelData.deposit)

end Drain

namespace Storage

/-- Little-endian base-10 digits of `n`, with enough structural fuel
(`fuel ≥ n` suffices). -/
def decDigits : Nat → Nat → List Nat
  | 0, _ => []
  | _ + 1, 0 => []
  | fuel + 1, n + 1 => ((n + 1) % 10) :: decDigits fuel ((n + 1) / 10)

/-- ASCII character of one decimal digit. -/
def digitChar (d : Nat) : Char := Char.ofNat (48 + d)

/-- Numeric value of one ASCII decimal digit character. -/
def charDigit (c : Char) : Nat := c.toNat - 48

/-- Decimal character representation of a natural number,
most-significant digit first. -/
def natDecimalChars (n : Nat) : List Char :=
  if n = 0 then ['0'] else ((decDigits n n).map digitChar).reverse

/-- JS `BigInt.prototype.toString()`: canonical decimal form, with a
leading minus sign for negative values. -/
def bigintToString (i : Int) : String :=
  if i < 0 then String.mk ('-' :: natDecimalChars i.natAbs)
  else String.mk (natDecimalChars i.natAbs)

/-- Value of a decimal digit string, most-significant digit first. -/
def decimalToNat (l : List Char) : Nat :=
  Nat.ofDigits 10 ((l.map charDigit).reverse)

/-- JS `BigInt(string)` restricted to the canonical decimal strings
produced by `bigintToString` (optional leading minus, decimal digits). -/
def jsBigInt (s : String) : Int :=
  match s.data with
  | [] => 0
  | c :: rest =>
      if c == '-' then -(decimalToNat rest : Int) else (decimalToNat (c :: rest) : Int)

/-- Voucher as it appears in the serialized JSON document: `amount` and
`nonce` are decimal strings, all other fields JSON-native. -/
structure SerializedVoucher where
  channelId : String
  amount : String
  nonce : String
  signature : String
  consumer : String
  receivedAt : Int
  claimed : Bool
  claimedAt : Option Int
  claimTxHash : Option String
deriving Repr, DecidableEq

/-- Channel state as it appears in the serialized JSON document. -/
structure SerializedChannel where
  channelId : String
  consumer : String
  deposit : String
  totalCharged : String
  expiry : Int
  lastVoucher : Option SerializedVoucher
  createdAt : Int
  lastActivityAt : Int
deriving Repr, DecidableEq

/-- Shape of the JSON document written by `VoucherStorage.save`. -/
structure SerializedStorage where
  vouchers : List SerializedVoucher
  channels : List (String × SerializedChannel)
  totalEarned : String
  totalClaimed : String
deriving Repr, DecidableEq

/-- Per-voucher serialization performed by `save`:
`{ ...v, amount: v.amount.toString(), nonce: v.nonce.toString() }`. -/
def serializeVoucher (v : StoredVoucher) : SerializedVoucher :=
  { channelId := v.channelId
    amount := bigintToString v.amount
    nonce := bigintToString v.nonce
    signature := v.signature
    consumer := v.consumer
    receivedAt := v.receivedAt
    claimed := v.claimed
    claimedAt := v.claimedAt
    claimTxHash := v.claimTxHash }

/-- Per-channel serialization performed by `save`: `deposit`,
`totalCharged` and the optional `lastVoucher`'s bigints become decimal
strings. -/
def serializeChannel (ch : ChannelState) : SerializedChannel :=
  { channelId := ch.channelId
    consumer := ch.consumer
    deposit := bigintToString ch.deposit
    totalCharged := bigintToString ch.totalCharged
    expiry := ch.expiry
    lastVoucher := ch.lastVoucher.map serializeVoucher
    createdAt := ch.createdAt
    lastActivityAt := ch.lastActivityAt }

/-- `VoucherStorage.save` (the serializable document it writes). -/
def save (d : StorageData) : SerializedStorage :=
  { vouchers := d.vouchers.map serializeVoucher
    channels := d.channels.map (fun p => (p.1, serializeChannel p.2))
    totalEarned := d.totalEarned
    totalClaimed := d.totalClaimed }

/-- Per-voucher restoration performed by `load`:
`{ ...v, amount: BigInt(v.amount), nonce: BigInt(v.nonce) }`. -/
def loadVoucher (v : SerializedVoucher) : StoredVoucher :=
  { channelId := v.channelId
    amount := jsBigInt v.amount
    nonce := jsBigInt v.nonce
    signature := v.signature
    consumer := v.consumer
    receivedAt := v.receivedAt
    claimed := v.claimed
    claimedAt := v.claimedAt
    claimTxHash := v.claimTxHash }

/-- Per-channel restoration performed by `load`. -/
def loadChannel (ch : SerializedChannel) : ChannelState :=
  { channelId := ch.channelId
    consumer := ch.consumer
    deposit := jsBigInt ch.deposit
    totalCharged := jsBigInt ch.totalCharged
    expiry := ch.expiry
    lastVoucher := ch.lastVoucher.map loadVoucher
    createdAt := ch.createdAt
    lastActivityAt := ch.lastActivityAt }

/-- `VoucherStorage.load` applied to a parsed storage document. -/
def load (p : SerializedStorage) : StorageData :=
  { vouchers := p.vouchers.map loadVoucher
    channels := p.channels.map (fun q => (q.1, loadChannel q.2))
    totalEarned := p.totalEarned
    totalClaimed := p.totalClaimed }

end Storage

/-! ## Helper lemmas -/

theorem assocSet_lookup_self (l : List (String × ChannelState)) (k : String)
    (v : ChannelState) : (Storage.assocSet l k v).lookup k = some v := by
  induction l with
  | nil => simp [Storage.assocSet, List.lookup]
  | cons p t ih =>
      obtain ⟨k', v'⟩ := p
      by_cases h : k' = k
      · simp [Storage.assocSet, h, List.lookup]
      · rw [Storage.assocSet, if_neg (by simpa using h)]
        rw [List.lookup, beq_eq_false_iff_ne.mpr (Ne.symm h)]
        exact ih

theorem assocSet_lookup_ne (l : List (String × ChannelState)) (k k' : String)
    (v : ChannelState) (h : k' ≠ k) :
    (Storage.assocSet l k v).lookup k' = l.lookup k' := by
  induction l with
  | nil => simp [Storage.assocSet, List.lookup, beq_eq_false_iff_ne.mpr h]
  | cons p t ih =>
      obtain ⟨k₀, v₀⟩ := p
      by_cases h0 : k₀ = k
      · subst h0
        simp [Storage.assocSet, List.lookup, beq_eq_false_iff_ne.mpr h]
      · rw [Storage.assocSet, if_neg (by simpa using h0)]
        rw [List.lookup, List.lookup]
        cases hb : k' == k₀ with
        | true => rfl
        | false => exact ih

/-- Hydration keeps `totalCharged`, `lastVoucher`, `deposit` and `consumer`
of a cached channel state, and seeds a fresh state with `totalCharged = 0`
and no `lastVoucher`. -/
theorem hydrate_fields (channelData : ChannelData) (d : StorageData)
    (channelId : String) (now : Int) :
    (match Storage.getChannel d channelId with
     | some cs =>
         (Drain.hydrate channelData d channelId now).1.totalCharged = cs.totalCharged ∧
         (Drain.hydrate channelData d channelId now).1.lastVoucher = cs.lastVoucher ∧
         (Drain.hydrate channelData d channelId now).1.deposit = cs.deposit ∧
         (Drain.hydrate channelData d channelId now).1.consumer = cs.consumer
     | none =>
         (Drain.hydrate channelData d channelId now).1.totalCharged = 0 ∧
         (Drain.hydrate channelData d channelId now).1.lastVoucher = none ∧
         (Drain.hydrate channelData d channelId now).1.deposit = channelData.deposit ∧
         (Drain.hydrate channelData d channelId now).1.consumer = channelData.consumer) := by
  unfold Drain.hydrate
  cases h : Storage.getChannel d channelId with
  | none => simp
  | some cs => by_cases he : cs.expiry = 0 <;> simp [he]

theorem staleNonce_iff (lastVoucher : Option StoredVoucher) (nonce : Int) :
    Drain.staleNonce lastVoucher nonce ↔
      ∃ lv, lastVoucher = some lv ∧ nonce ≤ lv.nonce := by
  cases lastVoucher <;> simp [Drain.staleNonce]

/-- Necessary conditions for `validateVoucher` to accept: the hydrated
state's `totalCharged` plus the required charge is covered, the deposit
bound holds, every recorded `lastVoucher` has a strictly smaller nonce,
and the signature check passed. -/
theorem validateVoucher_valid_imp (selfAddress : String)
    (channelData : ChannelData) (d : StorageData) (sigOk : Bool)
    (voucher : VoucherHeader) (requiredAmount now : Int)
    (hv : (Drain.validateVoucher selfAddress channelData d sigOk voucher
      requiredAmount now).1.valid = true) :
    channelData.consumer ≠ zeroAddress ∧
    jsToLower channelData.provider = jsToLower selfAddress ∧
    (Drain.hydrate channelData d voucher.channelId now).1.totalCharged
        + requiredAmount ≤ voucher.amount ∧
    voucher.amount ≤ channelData.deposit ∧
    (∀ lv, (Drain.hydrate channelData d voucher.channelId now).1.lastVoucher
        = some lv → lv.nonce < voucher.nonce) ∧
    sigOk = true := by
  unfold Drain.validateVoucher at hv
  by_cases h1 : channelData.consumer = zeroAddress
  · simp [h1] at hv
  rw [if_neg h1] at hv
  by_cases h2 : jsToLower channelData.provider ≠ jsToLower selfAddress
  · simp [if_pos h2] at hv
  rw [if_neg h2] at hv
  by_cases h3 : voucher.amount <
      (Drain.hydrate channelData d voucher.channelId now).1.totalCharged + requiredAmount
  · simp [if_pos h3] at hv
  rw [if_neg h3] at hv
  by_cases h4 : voucher.amount > channelData.deposit
  · simp [if_pos h4] at hv
  rw [if_neg h4] at hv
  by_cases h5 : Drain.staleNonce
      (Drain.hydrate channelData d voucher.channelId now).1.lastVoucher voucher.nonce
  · simp [if_pos h5] at hv
  by_cases h6 : sigOk = false
  · simp [if_neg h5, if_pos h6] at hv
  refine ⟨h1, by simpa using h2, by omega, by omega, ?_, by simpa using h6⟩
  intro lv hlv
  rw [staleNonce_iff] at h5
  push_neg at h5
  have := h5 lv hlv
  omega

/-- Branch shape of `validateVoucher` on acceptance: when all checks pass
the result is valid, carries the hydrated channel state and the voucher's
amount as `newTotal`, and the returned storage is the hydration one. -/
theorem validateVoucher_valid_of (selfAddress : String)
    (channelData : ChannelData) (d : StorageData) (sigOk : Bool)
    (voucher : VoucherHeader) (requiredAmount now : Int)
    (h1 : channelData.consumer ≠ zeroAddress)
    (h2 : jsToLower channelData.provider = jsToLower selfAddress)
    (h3 : (Drain.hydrate channelData d voucher.channelId now).1.totalCharged
        + requiredAmount ≤ voucher.amount)
    (h4 : voucher.amount ≤ channelData.deposit)
    (h5 : ∀ lv, (Drain.hydrate channelData d voucher.channelId now).1.lastVoucher
        = some lv → lv.nonce < voucher.nonce)
    (h6 : sigOk = true) :
    Drain.validateVoucher selfAddress channelData d sigOk voucher
        requiredAmount now =
      ({ valid := true, error := none,
         channel := some (Drain.hydrate channelData d voucher.channelId now).1,
         newTotal := some voucher.amount },
       (Drain.hydrate channelData d voucher.channelId now).2) := by
  have hnonce : ¬ Drain.staleNonce
      (Drain.hydrate channelData d voucher.channelId now).1.lastVoucher
      voucher.nonce := by
    rw [staleNonce_iff]
    rintro ⟨lv, hlv, hle⟩
    have := h5 lv hlv
    omega
  unfold Drain.validateVoucher
  rw [if_neg h1, if_neg (by simpa using h2), if_neg (by omega),
    if_neg (by omega), if_neg hnonce, if_neg (by simp [h6])]

/-! ## C1: the `insufficient_funds` boundary -/

/-- C1 counterexample: a voucher whose amount exactly equals
`totalCharged + requiredCharge` (here `0 + 7`) is nevertheless rejected —
not accepted — when its signature check fails, so "`amount ==
totalCharged + requiredCharge` is always accepted" is false as stated. -/
theorem exact_boundary_voucher_rejected :
    (Drain.validateVoucher "0xab"
      { consumer := "0xc1", provider := "0xab", deposit := 100, expiry := 50 }
      { vouchers := [], channels := [], totalEarned := "0", totalClaimed := "0" }
      false { channelId := "0x01", amount := 7, nonce := 1, signature := "s" }
      7 0).1.valid = false ∧
    (Drain.hydrate
      { consumer := "0xc1", provider := "0xab", deposit := 100, expiry := 50 }
      { vouchers := [], channels := [], totalEarned := "0", totalClaimed := "0" }
      "0x01" 0).1.totalCharged + 7 = (7 : Int) := by
  constructor <;> decide

/-- C1 (amended): for a channel that exists on-chain and belongs to this
provider, `validateVoucher` rejects with reason `insufficient_funds`
exactly when `voucher.amount < totalCharged + requiredCharge` (with
`totalCharged` read from the hydrated channel state); and a voucher with
`amount = totalCharged + requiredCharge` (inclusive boundary) is accepted
provided the remaining checks — deposit bound, nonce freshness and
signature — also pass. -/
theorem validateVoucher_insufficient_funds_boundary
    (selfAddress : String) (channelData : ChannelData) (d : StorageData)
    (sigOk : Bool) (voucher : VoucherHeader) (requiredCharge now : Int)
    (h1 : channelData.consumer ≠ zeroAddress)
    (h2 : jsToLower channelData.provider = jsToLower selfAddress) :
    ((Drain.validateVoucher selfAddress channelData d sigOk voucher
        requiredCharge now).1.error = some VError.insufficient_funds ↔
      voucher.amount <
        (Drain.hydrate channelData d voucher.channelId now).1.totalCharged
          + requiredCharge) ∧
    (voucher.amount =
        (Drain.hydrate channelData d voucher.channelId now).1.totalCharged
          + requiredCharge →
      voucher.amount ≤ channelData.deposit →
      (∀ lv, (Drain.hydrate channelData d voucher.channelId now).1.lastVoucher
          = some lv → lv.nonce < voucher.nonce) →
      sigOk = true →
      (Drain.validateVoucher selfAddress channelData d sigOk voucher
        requiredCharge now).1.valid = true) := by
  constructor
  · unfold Drain.validateVoucher
    rw [if_neg h1, if_neg (by simpa using h2)]
    by_cases h3 : voucher.amount <
        (Drain.hydrate channelData d voucher.channelId now).1.totalCharged + requiredCharge
    · rw [if_pos h3]
      simpa using h3
    · rw [if_neg h3]
      split_ifs <;> simp_all
  · intro he hd hn hs
    rw [validateVoucher_valid_of selfAddress channelData d sigOk voucher
      requiredCharge now h1 h2 (le_of_eq he.symm) hd hn hs]

/-- Witness for `validateVoucher_insufficient_funds_boundary` at a concrete
input: an exactly funded voucher with fresh nonce and valid signature. -/
theorem validateVoucher_insufficient_funds_boundary_witness :
    ((Drain.validateVoucher "0xab"
        { consumer := "0xc1", provider := "0xab", deposit := 100, expiry := 50 }
        { vouchers := [], channels := [], totalEarned := "0", totalClaimed := "0" }
        true { channelId := "0x01", amount := 7, nonce := 1, signature := "s" }
        7 0).1.error = some VError.insufficient_funds ↔
      (7 : Int) <
        (Drain.hydrate
          { consumer := "0xc1", provider := "0xab", deposit := 100, expiry := 50 }
          { vouchers := [], channels := [], totalEarned := "0", totalClaimed := "0" }
          "0x01" 0).1.totalCharged + 7) ∧
    ((7 : Int) =
        (Drain.hydrate
          { consumer := "0xc1", provider := "0xab", deposit := 100, expiry := 50 }
          { vouchers := [], channels := [], totalEarned := "0", totalClaimed := "0" }
          "0x01" 0).1.totalCharged + 7 →
      (7 : Int) ≤ 100 →
      (∀ lv, (Drain.hydrate
          { consumer := "0xc1", provider := "0xab", deposit := 100, expiry := 50 }
          { vouchers := [], channels := [], totalEarned := "0", totalClaimed := "0" }
          "0x01" 0).1.lastVoucher = some lv → lv.nonce < 1) →
      true = true →
      (Drain.validateVoucher "0xab"
        { consumer := "0xc1", provider := "0xab", deposit := 100, expiry := 50 }
        { vouchers := [], channels := [], totalEarned := "0", totalClaimed := "0" }
        true { channelId := "0x01", amount := 7, nonce := 1, signature := "s" }
        7 0).1.valid = true) :=
  validateVoucher_insufficient_funds_boundary "0xab"
    { consumer := "0xc1", provider := "0xab", deposit := 100, expiry := 50 }
    { vouchers := [], channels := [], totalEarned := "0", totalClaimed := "0" }
    true { channelId := "0x01", amount := 7, nonce := 1, signature := "s" }
    7 0 (by decide) (by decide)

/-- Hydration either leaves storage untouched or performs exactly the
expiry backfill on a cached channel state whose `expiry` was falsy. -/
theorem hydrate_snd (channelData : ChannelData) (d : StorageData)
    (channelId : String) (now : Int) :
    (Drain.hydrate channelData d channelId now).2 = d ∨
    ∃ cs, Storage.getChannel d channelId = some cs ∧ cs.expiry = 0 ∧
      (Drain.hydrate channelData d channelId now).2 =
        Storage.updateChannel d channelId { cs with expiry := channelData.expiry } := by
  unfold Drain.hydrate
  cases h : Storage.getChannel d channelId with
  | none => simp
  | some cs =>
      by_cases he : cs.expiry = 0
      · exact Or.inr ⟨cs, rfl, he, by simp [he]⟩
      · simp [he]

/-- The storage returned by `validateVoucher` is either the input storage
or the hydration one. -/
theorem validateVoucher_snd (selfAddress : String) (channelData : ChannelData)
    (d : StorageData) (sigOk : Bool) (voucher : VoucherHeader)
    (requiredAmount now : Int) :
    (Drain.validateVoucher selfAddress channelData d sigOk voucher
        requiredAmount now).2 = d ∨
    (Drain.validateVoucher selfAddress channelData d sigOk voucher
        requiredAmount now).2 =
      (Drain.hydrate channelData d voucher.channelId now).2 := by
  unfold Drain.validateVoucher
  by_cases h1 : channelData.consumer = zeroAddress
  · simp [h1]
  rw [if_neg h1]
  by_cases h2 : jsToLower channelData.provider ≠ jsToLower selfAddress
  · simp [if_pos h2]
  rw [if_neg h2]
  split_ifs <;> simp [apply_ite Prod.snd]

/-! ## C8: validation is read-only except for the expiry backfill -/

/-- C8 counterexample: validating a voucher against a cached channel state
whose `expiry` is falsy (0) mutates that stored state — its `expiry` is
backfilled from the chain read (here 0 becomes 1000) — so "every stored
ChannelState (including ... expiry) is unchanged by validation" is false
as stated. -/
theorem validateVoucher_mutates_cached_expiry :
    (Storage.getChannel
      (Drain.validateVoucher "0xab"
        { consumer := "0xc1", provider := "0xab", deposit := 100, expiry := 1000 }
        { vouchers := [],
          channels := [("0x01",
            { channelId := "0x01", consumer := "0xc1", deposit := 100,
              totalCharged := 5, expiry := 0, lastVoucher := none,
              createdAt := 0, lastActivityAt := 0 })],
          totalEarned := "0", totalClaimed := "0" }
        true { channelId := "0x01", amount := 10, nonce := 1, signature := "s" }
        2 0).2 "0x01").map ChannelState.expiry = some 1000 ∧
    (Storage.getChannel
      { vouchers := [],
        channels := [("0x01",
          { channelId := "0x01", consumer := "0xc1", deposit := 100,
            totalCharged := 5, expiry := 0, lastVoucher := none,
            createdAt := 0, lastActivityAt := 0 })],
        totalEarned := "0", totalClaimed := "0" }
      "0x01").map ChannelState.expiry = some 0 := by
  constructor <;> decide

/-- C8 (amended): for every input and both outcomes, `validateVoucher`
leaves the stored voucher list and the running totals untouched, leaves
every channel other than the voucher's own entirely unchanged, and leaves
every stored channel's `channelId`, `consumer`, `deposit`, `totalCharged`,
`lastVoucher`, `createdAt` and `lastActivityAt` unchanged; the only
possible write is backfilling a falsy cached `expiry` of the voucher's
channel from the chain read.  Mutation of the ledger proper happens only
in the separate commit step. -/
theorem validateVoucher_readonly_except_expiry_backfill
    (selfAddress : String) (channelData : ChannelData) (d : StorageData)
    (sigOk : Bool) (voucher : VoucherHeader) (requiredAmount now : Int) :
    (Drain.validateVoucher selfAddress channelData d sigOk voucher
        requiredAmount now).2.vouchers = d.vouchers ∧
    (Drain.validateVoucher selfAddress channelData d sigOk voucher
        requiredAmount now).2.totalEarned = d.totalEarned ∧
    (Drain.validateVoucher selfAddress channelData d sigOk voucher
        requiredAmount now).2.totalClaimed = d.totalClaimed ∧
    (∀ cid, cid ≠ voucher.channelId →
      Storage.getChannel (Drain.validateVoucher selfAddress channelData d sigOk
        voucher requiredAmount now).2 cid = Storage.getChannel d cid) ∧
    (∀ cid,
      (Storage.getChannel (Drain.validateVoucher selfAddress channelData d sigOk
          voucher requiredAmount now).2 cid).map
        (fun c => (c.channelId, c.consumer, c.deposit, c.totalCharged,
          c.lastVoucher, c.createdAt, c.lastActivityAt)) =
      (Storage.getChannel d cid).map
        (fun c => (c.channelId, c.consumer, c.deposit, c.totalCharged,
          c.lastVoucher, c.createdAt, c.lastActivityAt))) := by
  have hsnd := validateVoucher_snd selfAddress channelData d sigOk voucher
    requiredAmount now
  have hcase : (Drain.validateVoucher selfAddress channelData d sigOk voucher
      requiredAmount now).2 = d ∨
      ∃ cs, Storage.getChannel d voucher.channelId = some cs ∧ cs.expiry = 0 ∧
        (Drain.validateVoucher selfAddress channelData d sigOk voucher
          requiredAmount now).2 =
          Storage.updateChannel d voucher.channelId
            { cs with expiry := channelData.expiry } := by
    rcases hsnd with h | h
    · exact Or.inl h
    · rcases hydrate_snd channelData d voucher.channelId now with h2 | ⟨cs, hcs, he, h2⟩
      · exact Or.inl (h.trans h2)
      · exact Or.inr ⟨cs, hcs, he, h.trans h2⟩
  rcases hcase with h | ⟨cs, hcs, he, h⟩
  · rw [h]
    exact ⟨rfl, rfl, rfl, fun _ _ => rfl, fun _ => rfl⟩
  · rw [h]
    refine ⟨rfl, rfl, rfl, ?_, ?_⟩
    · intro cid hne
      unfold Storage.getChannel Storage.updateChannel
      exact assocSet_lookup_ne d.channels voucher.channelId cid _ hne
    · intro cid
      by_cases hq : cid = voucher.channelId
      · rw [hq]
        have h1 : Storage.getChannel (Storage.updateChannel d voucher.channelId
            { cs with expiry := channelData.expiry }) voucher.channelId =
            some { cs with expiry := channelData.expiry } := by
          unfold Storage.getChannel Storage.updateChannel
          exact assocSet_lookup_self d.channels voucher.channelId _
        rw [h1, hcs]
        rfl
      · have h1 : Storage.getChannel (Storage.updateChannel d voucher.channelId
            { cs with expiry := channelData.expiry }) cid =
            Storage.getChannel d cid := by
          unfold Storage.getChannel Storage.updateChannel
          exact assocSet_lookup_ne d.channels voucher.channelId cid _ hq
        rw [h1]

/-! ## C4: stale nonces are always rejected -/

/-- C4: for every channel state whose `lastVoucher` is set, `validateVoucher`
rejects every voucher whose nonce is at most `lastVoucher.nonce`, for every
amount and every `requiredAmount` — the result is never an acceptance. -/
theorem validateVoucher_rejects_stale_nonce
    (selfAddress : String) (channelData : ChannelData) (d : StorageData)
    (sigOk : Bool) (voucher : VoucherHeader) (requiredAmount now : Int)
    (cs : ChannelState) (lv : StoredVoucher)
    (hcs : Storage.getChannel d voucher.channelId = some cs)
    (hlv : cs.lastVoucher = some lv)
    (hn : voucher.nonce ≤ lv.nonce) :
    (Drain.validateVoucher selfAddress channelData d sigOk voucher
      requiredAmount now).1.valid = false := by
  cases hval : (Drain.validateVoucher selfAddress channelData d sigOk voucher
      requiredAmount now).1.valid with
  | false => rfl
  | true =>
      exfalso
      obtain ⟨-, -, -, -, hlast, -⟩ := validateVoucher_valid_imp _ _ _ _ _ _ _ hval
      have hhy := hydrate_fields channelData d voucher.channelId now
      rw [hcs] at hhy
      have := hlast lv (by rw [hhy.2.1, hlv])
      omega

/-- Witness for `validateVoucher_rejects_stale_nonce` at a concrete input:
a replayed nonce is rejected even with a large amount and valid signature. -/
theorem validateVoucher_rejects_stale_nonce_witness :
    (Drain.validateVoucher "0xab"
      { consumer := "0xc1", provider := "0xab", deposit := 1000, expiry := 50 }
      { vouchers := [],
        channels := [("0x01",
          { channelId := "0x01", consumer := "0xc1", deposit := 1000,
            totalCharged := 10, expiry := 50,
            lastVoucher := some
              { channelId := "0x01", amount := 10, nonce := 5, signature := "s",
                consumer := "0xc1", receivedAt := 0, claimed := false,
                claimedAt := none, claimTxHash := none },
            createdAt := 0, lastActivityAt := 0 })],
        totalEarned := "0", totalClaimed := "0" }
      true
      { channelId := "0x01", amount := 900, nonce := 5, signature := "s" }
      1 0).1.valid = false := by
  exact validateVoucher_rejects_stale_nonce _ _ _ _ _ _ _
    { channelId := "0x01", consumer := "0xc1", deposit := 1000,
      totalCharged := 10, expiry := 50,
      lastVoucher := some
        { channelId := "0x01", amount := 10, nonce := 5, signature := "s",
          consumer := "0xc1", receivedAt := 0, claimed := false,
          claimedAt := none, claimTxHash := none },
      createdAt := 0, lastActivityAt := 0 }
    { channelId := "0x01", amount := 10, nonce := 5, signature := "s",
      consumer := "0xc1", receivedAt := 0, claimed := false,
      claimedAt := none, claimTxHash := none }
    (by decide) (by decide) (by decide)

/-! ## Commit-step lemmas and the ledger invariant -/

theorem storeVoucher_getChannel_self (d : StorageData) (voucher : VoucherHeader)
    (cs : ChannelState) (cost now : Int) :
    Storage.getChannel (Drain.storeVoucher d voucher cs cost now)
        voucher.channelId =
      some { cs with
        totalCharged := cs.totalCharged + cost
        lastVoucher := some (Drain.mkStored voucher cs.consumer now)
        lastActivityAt := now } := by
  unfold Drain.storeVoucher Storage.updateChannel Storage.getChannel
    Storage.storeVoucher
  exact assocSet_lookup_self _ _ _

/-- On acceptance, a validate-then-commit round is exactly the commit of
the hydrated channel state with the round's cost. -/
theorem vcRound_accepted (selfAddress : String) (channelData : ChannelData)
    (sigOk : Bool) (now : Int) (d : StorageData) (r : VoucherHeader × Int)
    (hacc : (Drain.validateVoucher selfAddress channelData d sigOk r.1 r.2
      now).1.valid = true) :
    Drain.vcRound selfAddress channelData sigOk now d r =
      Drain.storeVoucher (Drain.hydrate channelData d r.1.channelId now).2 r.1
        (Drain.hydrate channelData d r.1.channelId now).1 r.2 now := by
  obtain ⟨h1, h2, h3, h4, h5, h6⟩ := validateVoucher_valid_imp _ _ _ _ _ _ _ hacc
  unfold Drain.vcRound
  rw [validateVoucher_valid_of selfAddress channelData d sigOk r.1 r.2 now
    h1 h2 h3 h4 h5 h6]
  simp

/-- The ledger invariant is preserved by any sequence of accepted
validate-then-commit rounds on one channel, and the running total stays
within the on-chain deposit. -/
theorem runRounds_inv (selfAddress : String) (channelData : ChannelData)
    (sigOk : Bool) (now : Int) (cid : String)
    (rounds : List (VoucherHeader × Int)) :
    ∀ (d : StorageData) (t : Int),
    (∀ r ∈ rounds, r.1.channelId = cid) →
    Drain.allAccepted selfAddress channelData sigOk now d rounds = true →
    Drain.LedgerInv channelData cid d t →
    t ≤ channelData.deposit →
    Drain.LedgerInv channelData cid
      (Drain.runRounds selfAddress channelData sigOk now d rounds)
      (t + (rounds.map (fun r => r.2)).sum) ∧
    t + (rounds.map (fun r => r.2)).sum ≤ channelData.deposit := by
  induction rounds with
  | nil =>
      intro d t _ _ hinv hle
      simpa [Drain.runRounds] using ⟨hinv, hle⟩
  | cons r rs ih =>
      intro d t hcid hacc hinv hle
      obtain ⟨vh, cost⟩ := r
      have hcidr : vh.channelId = cid := hcid (vh, cost) (by simp)
      subst hcidr
      rw [Drain.allAccepted, Bool.and_eq_true] at hacc
      obtain ⟨hv, hrest⟩ := hacc
      obtain ⟨h1, h2, h3, h4, h5, h6⟩ := validateVoucher_valid_imp _ _ _ _ _ _ _ hv
      dsimp only at h3 h4 h5
      have hhyd := hydrate_fields channelData d vh.channelId now
      have htc : (Drain.hydrate channelData d vh.channelId now).1.totalCharged = t := by
        unfold Drain.LedgerInv at hinv
        cases hg : Storage.getChannel d vh.channelId with
        | none => rw [hg] at hhyd hinv; omega
        | some cs => rw [hg] at hhyd hinv; rw [hhyd.1, hinv.1]
      have hsum : t + cost ≤ vh.amount := by
        rw [htc] at h3; simpa using h3
      have hstep := vcRound_accepted selfAddress channelData sigOk now d
        (vh, cost) hv
      have hnew : Drain.LedgerInv channelData vh.channelId
          (Drain.vcRound selfAddress channelData sigOk now d (vh, cost))
          (t + cost) := by
        rw [hstep]
        unfold Drain.LedgerInv
        rw [storeVoucher_getChannel_self]
        refine ⟨by simpa using congrArg (fun x => x + cost) htc, ?_⟩
        intro lv hlv
        simp only [Option.some_inj] at hlv
        have hamount : lv.amount = vh.amount := by
          rw [← hlv]
          rfl
        exact ⟨by omega, by omega⟩
      have hcid' : ∀ q ∈ rs, (q : VoucherHeader × Int).1.channelId = vh.channelId := by
        intro q hq
        exact hcid q (by simp [hq])
      have hres := ih (Drain.vcRound selfAddress channelData sigOk now d
        (vh, cost)) (t + cost) hcid' hrest hnew (by omega)
      rw [Drain.runRounds]
      have hsumeq : t + (((vh, cost) :: rs).map (fun q => q.2)).sum =
          (t + cost) + (rs.map (fun q => q.2)).sum := by
        simp
        ring
      rw [hsumeq]
      exact hres

/-! ## C2: `totalCharged` versus `lastVoucher.amount` -/

/-- C2 counterexample: hydrating a fresh channel and committing an
accepted voucher that overpays (amount 10 against a required charge and
commit cost of 7) leaves `totalCharged = 7` while `lastVoucher.amount =
10`, so "`totalCharged` equals the `amount` field of `lastVoucher` once
one exists" is false as stated. -/
theorem totalCharged_ne_lastVoucher_amount :
    (Storage.getChannel
      (Drain.vcRound "0xab"
        { consumer := "0xc1", provider := "0xab", deposit := 100, expiry := 50 }
        true 0
        { vouchers := [], channels := [], totalEarned := "0", totalClaimed := "0" }
        ({ channelId := "0x01", amount := 10, nonce := 1, signature := "s" }, 7))
      "0x01").map
      (fun cs => (cs.totalCharged, cs.lastVoucher.map (fun lv => lv.amount)))
      = some (7, some 10) ∧ (7 : Int) ≠ 10 := by
  constructor <;> decide

/-- C2 (amended): for every accepted validate-then-commit round, the
accepted voucher's amount is never less than the `totalCharged` before it
(monotonicity, for non-negative costs); after the commit the channel's
`totalCharged` has grown by exactly the commit's cost, the committed
voucher is recorded as `lastVoucher`, and `totalCharged` is bounded by —
but need not equal — `lastVoucher.amount`. -/
theorem commit_monotone_bounded_by_lastVoucher
    (selfAddress : String) (channelData : ChannelData) (sigOk : Bool)
    (now : Int) (d : StorageData) (voucher : VoucherHeader) (cost : Int)
    (hacc : (Drain.validateVoucher selfAddress channelData d sigOk voucher
      cost now).1.valid = true) :
    (0 ≤ cost →
      (Drain.hydrate channelData d voucher.channelId now).1.totalCharged ≤
        voucher.amount) ∧
    ∃ cs', Storage.getChannel
        (Drain.vcRound selfAddress channelData sigOk now d (voucher, cost))
        voucher.channelId = some cs' ∧
      cs'.totalCharged =
        (Drain.hydrate channelData d voucher.channelId now).1.totalCharged
          + cost ∧
      ∃ lv, cs'.lastVoucher = some lv ∧ lv.amount = voucher.amount ∧
        cs'.totalCharged ≤ lv.amount := by
  obtain ⟨h1, h2, h3, h4, h5, h6⟩ := validateVoucher_valid_imp _ _ _ _ _ _ _ hacc
  constructor
  · intro hc
    omega
  · rw [vcRound_accepted selfAddress channelData sigOk now d (voucher, cost) hacc]
    dsimp only
    refine ⟨_, storeVoucher_getChannel_self _ _ _ _ _, rfl,
      Drain.mkStored voucher
        (Drain.hydrate channelData d voucher.channelId now).1.consumer now,
      rfl, rfl, ?_⟩
    simpa using h3

/-- Witness for `commit_monotone_bounded_by_lastVoucher` at a concrete
accepted round (amount 10, cost 7 on a fresh channel). -/
theorem commit_monotone_bounded_by_lastVoucher_witness :
    ((0 : Int) ≤ 7 →
      (Drain.hydrate
        { consumer := "0xc1", provider := "0xab", deposit := 100, expiry := 50 }
        { vouchers := [], channels := [], totalEarned := "0", totalClaimed := "0" }
        "0x01" 0).1.totalCharged ≤ 10) ∧
    ∃ cs', Storage.getChannel
        (Drain.vcRound "0xab"
          { consumer := "0xc1", provider := "0xab", deposit := 100, expiry := 50 }
          true 0
          { vouchers := [], channels := [], totalEarned := "0", totalClaimed := "0" }
          ({ channelId := "0x01", amount := 10, nonce := 1, signature := "s" }, 7))
        "0x01" = some cs' ∧
      cs'.totalCharged =
        (Drain.hydrate
          { consumer := "0xc1", provider := "0xab", deposit := 100, expiry := 50 }
          { vouchers := [], channels := [], totalEarned := "0", totalClaimed := "0" }
          "0x01" 0).1.totalCharged + 7 ∧
      ∃ lv, cs'.lastVoucher = some lv ∧ lv.amount = 10 ∧
        cs'.totalCharged ≤ lv.amount :=
  commit_monotone_bounded_by_lastVoucher "0xab"
    { consumer := "0xc1", provider := "0xab", deposit := 100, expiry := 50 }
    true 0
    { vouchers := [], channels := [], totalEarned := "0", totalClaimed := "0" }
    { channelId := "0x01", amount := 10, nonce := 1, signature := "s" } 7
    (by decide)

/-! ## C3: `totalCharged` is the sum of committed costs, within deposit -/

/-- C3: starting from a channel not yet in storage (hydrated with
`totalCharged = 0`), after any sequence of accepted validate-then-commit
rounds on that channel — each commit's cost being the `requiredCharge` its
accepting validation was given — the stored `totalCharged` equals the sum
of the costs and never exceeds the on-chain deposit. -/
theorem runRounds_totalCharged_sum_le_deposit
    (selfAddress : String) (channelData : ChannelData) (sigOk : Bool)
    (now : Int) (cid : String) (rounds : List (VoucherHeader × Int))
    (d : StorageData)
    (hdep : 0 ≤ channelData.deposit)
    (hfresh : Storage.getChannel d cid = none)
    (hcid : ∀ r ∈ rounds, r.1.channelId = cid)
    (hacc : Drain.allAccepted selfAddress channelData sigOk now d rounds
      = true) :
    (match Storage.getChannel
        (Drain.runRounds selfAddress channelData sigOk now d rounds) cid with
     | none => (0 : Int)
     | some cs => cs.totalCharged) = (rounds.map (fun r => r.2)).sum ∧
    (rounds.map (fun r => r.2)).sum ≤ channelData.deposit := by
  have hinv0 : Drain.LedgerInv channelData cid d 0 := by
    unfold Drain.LedgerInv
    rw [hfresh]
  obtain ⟨hinv, hle⟩ := runRounds_inv selfAddress channelData sigOk now cid
    rounds d 0 hcid hacc hinv0 hdep
  unfold Drain.LedgerInv at hinv
  constructor
  · cases hg : Storage.getChannel
        (Drain.runRounds selfAddress channelData sigOk now d rounds) cid with
    | none =>
        rw [hg] at hinv
        simp only
        omega
    | some cs =>
        rw [hg] at hinv
        simp only
        omega
  · simpa using hle

/-- Witness for `runRounds_totalCharged_sum_le_deposit`: two accepted
rounds of cost 7 and 20 on a fresh channel leave `totalCharged = 27 ≤
100`. -/
theorem runRounds_totalCharged_sum_le_deposit_witness :
    (match Storage.getChannel
        (Drain.runRounds "0xab"
          { consumer := "0xc1", provider := "0xab", deposit := 100, expiry := 50 }
          true 0
          { vouchers := [], channels := [], totalEarned := "0", totalClaimed := "0" }
          [({ channelId := "0x01", amount := 10, nonce := 1, signature := "s" }, 7),
           ({ channelId := "0x01", amount := 27, nonce := 2, signature := "s" }, 20)])
        "0x01" with
     | none => (0 : Int)
     | some cs => cs.totalCharged) =
      (([({ channelId := "0x01", amount := 10, nonce := 1, signature := "s" }, (7 : Int)),
        ({ channelId := "0x01", amount := 27, nonce := 2, signature := "s" }, 20)] :
           List (VoucherHeader × Int)).map
          (fun r => r.2)).sum ∧
    (([({ channelId := "0x01", amount := 10, nonce := 1, signature := "s" }, (7 : Int)),
      ({ channelId := "0x01", amount := 27, nonce := 2, signature := "s" }, 20)] :
         List (VoucherHeader × Int)).map
        (fun r => r.2)).sum ≤
      (100 : Int) :=
  runRounds_totalCharged_sum_le_deposit "0xab"
    { consumer := "0xc1", provider := "0xab", deposit := 100, expiry := 50 }
    true 0 "0x01"
    [({ channelId := "0x01", amount := 10, nonce := 1, signature := "s" }, 7),
     ({ channelId := "0x01", amount := 27, nonce := 2, signature := "s" }, 20)]
    { vouchers := [], channels := [], totalEarned := "0", totalClaimed := "0" }
    (by decide) (by decide) (by decide) (by decide)

/-! ## `markClaimed` and the highest-voucher map -/

theorem markVoucher_of_ne (channelId txHash : String) (now : Int)
    (v : StoredVoucher) (h : v.channelId ≠ channelId) :
    Storage.markVoucher channelId txHash now v = v := by
  unfold Storage.markVoucher
  rw [if_neg]
  simp [h]

theorem markVoucher_of_claimed (channelId txHash : String) (now : Int)
    (v : StoredVoucher) (h : v.claimed = true) :
    Storage.markVoucher channelId txHash now v = v := by
  unfold Storage.markVoucher
  rw [if_neg]
  simp [h]

theorem markVoucher_claimed (channelId txHash : String) (now : Int)
    (v : StoredVoucher) (h : v.channelId = channelId) :
    (Storage.markVoucher channelId txHash now v).claimed = true := by
  unfold Storage.markVoucher
  by_cases hc : v.claimed = true
  · rw [if_neg (by simp [hc])]
    exact hc
  · rw [if_pos ⟨h, by simpa using hc⟩]

theorem lookup_filter_ne (l : List (String × StoredVoucher)) (ch k : String)
    (h : k ≠ ch) :
    (l.filter (fun q => !(q.1 == ch))).lookup k = l.lookup k := by
  induction l with
  | nil => rfl
  | cons q t ih =>
      obtain ⟨k0, v0⟩ := q
      by_cases h0 : k0 = ch
      · rw [List.filter_cons_of_neg (by simp [h0])]
        rw [ih, List.lookup, beq_eq_false_iff_ne.mpr (h0 ▸ h)]
      · rw [List.filter_cons_of_pos (by simp [h0])]
        rw [List.lookup, List.lookup]
        cases hb : k == k0 with
        | true => rfl
        | false => exact ih

theorem lookup_filter_self (l : List (String × StoredVoucher)) (ch : String) :
    (l.filter (fun q => !(q.1 == ch))).lookup ch = none := by
  induction l with
  | nil => rfl
  | cons q t ih =>
      obtain ⟨k0, v0⟩ := q
      by_cases h0 : k0 = ch
      · rw [List.filter_cons_of_neg (by simp [h0])]
        exact ih
      · rw [List.filter_cons_of_pos (by simp [h0])]
        rw [List.lookup, beq_eq_false_iff_ne.mpr (Ne.symm h0)]
        exact ih

theorem filter_mapSet_self (l : List (String × StoredVoucher)) (ch : String)
    (v : StoredVoucher) :
    (Storage.mapSet l ch v).filter (fun q => !(q.1 == ch)) =
      l.filter (fun q => !(q.1 == ch)) := by
  induction l with
  | nil => simp [Storage.mapSet]
  | cons q t ih =>
      obtain ⟨k0, v0⟩ := q
      by_cases h0 : k0 = ch
      · rw [Storage.mapSet, if_pos (by simpa using h0)]
        rw [List.filter_cons_of_neg (by simp), List.filter_cons_of_neg (by simp [h0])]
      · rw [Storage.mapSet, if_neg (by simpa using h0)]
        rw [List.filter_cons_of_pos (by simp [h0]), List.filter_cons_of_pos (by simp [h0])]
        rw [ih]

theorem filter_mapSet_ne (l : List (String × StoredVoucher)) (ch k : String)
    (v : StoredVoucher) (h : k ≠ ch) :
    (Storage.mapSet l k v).filter (fun q => !(q.1 == ch)) =
      Storage.mapSet (l.filter (fun q => !(q.1 == ch))) k v := by
  induction l with
  | nil => simp [Storage.mapSet, h]
  | cons q t ih =>
      obtain ⟨k0, v0⟩ := q
      by_cases h0 : k0 = k
      · rw [Storage.mapSet, if_pos (by simpa using h0)]
        rw [List.filter_cons_of_pos (by simp [h0]; exact h),
          List.filter_cons_of_pos (by simp [h0]; exact h)]
        rw [Storage.mapSet, if_pos (by simpa using h0)]
      · rw [Storage.mapSet, if_neg (by simpa using h0)]
        by_cases h1 : k0 = ch
        · rw [List.filter_cons_of_neg (by simp [h1]), List.filter_cons_of_neg (by simp [h1])]
          exact ih
        · rw [List.filter_cons_of_pos (by simp [h1]), List.filter_cons_of_pos (by simp [h1])]
          rw [Storage.mapSet, if_neg (by simpa using h0)]
          rw [ih]

/-- One `highestStep` commutes with dropping the `ch` key, for vouchers not
of channel `ch`. -/
theorem highestStep_filter (acc : List (String × StoredVoucher))
    (v : StoredVoucher) (ch : String) (hch : v.channelId ≠ ch) :
    Storage.highestStep (acc.filter (fun q => !(q.1 == ch))) v =
      (Storage.highestStep acc v).filter (fun q => !(q.1 == ch)) := by
  unfold Storage.highestStep
  by_cases hc : v.claimed = true
  · rw [if_pos hc, if_pos hc]
  · rw [if_neg hc, if_neg hc]
    rw [lookup_filter_ne acc ch v.channelId hch]
    cases hl : acc.lookup v.channelId with
    | none => exact (filter_mapSet_ne acc ch v.channelId v hch).symm
    | some ex =>
        dsimp only
        by_cases hgt : v.amount > ex.amount
        · rw [if_pos hgt, if_pos hgt]
          exact (filter_mapSet_ne acc ch v.channelId v hch).symm
        · rw [if_neg hgt, if_neg hgt]

/-- After a `ch` voucher is marked claimed, the `highestStep` on it is a
no-op; the unmarked step can only touch the `ch` entry, which the filter
drops. -/
theorem highestStep_filter_self (acc : List (String × StoredVoucher))
    (v : StoredVoucher) (ch : String) (hch : v.channelId = ch) :
    (Storage.highestStep acc v).filter (fun q => !(q.1 == ch)) =
      acc.filter (fun q => !(q.1 == ch)) := by
  unfold Storage.highestStep
  by_cases hc : v.claimed = true
  · rw [if_pos hc]
  · rw [if_neg hc]
    cases hl : acc.lookup v.channelId with
    | none => rw [hch] at *; exact filter_mapSet_self acc ch v
    | some ex =>
        dsimp only
        by_cases hgt : v.amount > ex.amount
        · rw [if_pos hgt, hch]
          exact filter_mapSet_self acc ch v
        · rw [if_neg hgt]

/-- The highest-voucher fold over a voucher list with channel `ch` marked
claimed equals the fold over the original list with the `ch` entry
dropped. -/
theorem highest_fold_mark (ch txHash : String) (now : Int) :
    ∀ (vs : List StoredVoucher) (acc : List (String × StoredVoucher)),
    (vs.map (Storage.markVoucher ch txHash now)).foldl Storage.highestStep
        (acc.filter (fun q => !(q.1 == ch))) =
      (vs.foldl Storage.highestStep acc).filter (fun q => !(q.1 == ch)) := by
  intro vs
  induction vs with
  | nil => intro acc; rfl
  | cons v t ih =>
      intro acc
      rw [List.map_cons, List.foldl_cons, List.foldl_cons]
      by_cases hch : v.channelId = ch
      · have hskip : Storage.highestStep (acc.filter (fun q => !(q.1 == ch)))
            (Storage.markVoucher ch txHash now v) =
            acc.filter (fun q => !(q.1 == ch)) := by
          unfold Storage.highestStep
          rw [if_pos (markVoucher_claimed ch txHash now v hch)]
        rw [hskip]
        have := ih (Storage.highestStep acc v)
        rw [highestStep_filter_self acc v ch hch] at this
        exact this
      · rw [markVoucher_of_ne ch txHash now v hch]
        rw [highestStep_filter acc v ch hch]
        exact ih (Storage.highestStep acc v)

/-- `markClaimed` drops exactly the channel's entry from the
highest-voucher map. -/
theorem highest_markClaimed (d : StorageData) (ch txHash : String) (now : Int) :
    Storage.getHighestVoucherPerChannel (Storage.markClaimed d ch txHash now) =
      (Storage.getHighestVoucherPerChannel d).filter (fun q => !(q.1 == ch)) := by
  unfold Storage.getHighestVoucherPerChannel Storage.markClaimed
  simpa using highest_fold_mark ch txHash now d.vouchers []

theorem markVoucher_channelId (channelId txHash : String) (now : Int)
    (v : StoredVoucher) :
    (Storage.markVoucher channelId txHash now v).channelId = v.channelId := by
  unfold Storage.markVoucher
  split_ifs <;> rfl

theorem markClaimed_vouchers_filter_ne (d : StorageData) (ch txHash : String)
    (now : Int) :
    (Storage.markClaimed d ch txHash now).vouchers.filter
        (fun v => !(v.channelId == ch)) =
      d.vouchers.filter (fun v => !(v.channelId == ch)) := by
  unfold Storage.markClaimed
  induction d.vouchers with
  | nil => rfl
  | cons v t ih =>
      rw [List.map_cons]
      by_cases hch : v.channelId = ch
      · rw [List.filter_cons_of_neg, List.filter_cons_of_neg (by simp [hch])]
        · exact ih
        · simp [markVoucher_channelId, hch]
      · rw [markVoucher_of_ne ch txHash now v hch]
        rw [List.filter_cons_of_pos (by simp [hch]),
          List.filter_cons_of_pos (by simp [hch])]
        rw [ih]

theorem markClaimed_allClaimed (d : StorageData) (ch txHash : String)
    (now : Int) :
    ∀ v ∈ (Storage.markClaimed d ch txHash now).vouchers,
      v.channelId = ch → v.claimed = true := by
  intro v hv hch
  unfold Storage.markClaimed at hv
  simp only [List.mem_map] at hv
  obtain ⟨v0, hv0, hmk⟩ := hv
  have hch0 : v0.channelId = ch := by
    rw [← markVoucher_channelId ch txHash now v0, hmk, hch]
  rw [← hmk]
  exact markVoucher_claimed ch txHash now v0 hch0

theorem markClaimed_highest_lookup_none (d : StorageData) (ch txHash : String)
    (now : Int) :
    (Storage.getHighestVoucherPerChannel
      (Storage.markClaimed d ch txHash now)).lookup ch = none := by
  rw [highest_markClaimed d ch txHash now]
  exact lookup_filter_self _ ch

/-! ## C10: `markClaimed` dead-letters the whole channel -/

/-- C10: `markClaimed(channelId, txHash)` marks every currently unclaimed
stored voucher of that channel claimed, all with the same `txHash` and
`claimedAt` (not only the highest one); immediately afterwards — whatever
triggered the call (successful claim, zero-balance pre-check, or
permanent claim error, all of which invoke this same function) — the
channel has no unclaimed voucher, contributes no entry to
`getHighestVoucherPerChannel` and nothing to `getTotalUnclaimed`, while
vouchers and highest-map entries of every other channel are unchanged. -/
theorem markClaimed_spec (d : StorageData) (ch txHash : String) (now : Int) :
    (∀ v ∈ (Storage.markClaimed d ch txHash now).vouchers,
       v.channelId = ch → v.claimed = true) ∧
    (∀ v ∈ d.vouchers, v.channelId = ch → v.claimed = false →
       { v with claimed := true, claimedAt := some now, claimTxHash := some txHash }
         ∈ (Storage.markClaimed d ch txHash now).vouchers) ∧
    ((Storage.markClaimed d ch txHash now).vouchers.filter
        (fun v => !(v.channelId == ch)) =
      d.vouchers.filter (fun v => !(v.channelId == ch))) ∧
    (Storage.getHighestVoucherPerChannel (Storage.markClaimed d ch txHash now) =
      (Storage.getHighestVoucherPerChannel d).filter (fun q => !(q.1 == ch))) ∧
    ((Storage.getHighestVoucherPerChannel
        (Storage.markClaimed d ch txHash now)).lookup ch = none) ∧
    (∀ k, k ≠ ch →
      (Storage.getHighestVoucherPerChannel
          (Storage.markClaimed d ch txHash now)).lookup k =
        (Storage.getHighestVoucherPerChannel d).lookup k) ∧
    Storage.getTotalUnclaimed (Storage.markClaimed d ch txHash now) =
      (((Storage.getHighestVoucherPerChannel d).filter
          (fun q => !(q.1 == ch))).map (fun q => q.2.amount)).sum := by
  have hhigh := highest_markClaimed d ch txHash now
  refine ⟨markClaimed_allClaimed d ch txHash now, ?_,
    markClaimed_vouchers_filter_ne d ch txHash now, hhigh,
    markClaimed_highest_lookup_none d ch txHash now, ?_, ?_⟩
  · intro v hv hch hcl
    unfold Storage.markClaimed
    simp only [List.mem_map]
    refine ⟨v, hv, ?_⟩
    unfold Storage.markVoucher
    rw [if_pos ⟨hch, hcl⟩]
  · intro k hk
    rw [hhigh]
    exact lookup_filter_ne _ ch k hk
  · unfold Storage.getTotalUnclaimed
    rw [hhigh]

/-! ## C5: permanent versus transient claim errors -/

/-- C5: when a claim failure carries a named contract error in the
permanent set (`InvalidAmount`, `ChannelNotFound`, `InvalidSignature`,
`NotProvider`, `NotExpired`), `handleClaimError` dead-letters the channel:
it is exactly `markClaimed` with the null tx reference `"0x0"`, after
which the channel has no unclaimed voucher and no entry in the
highest-voucher map (so it is excluded from all future claim passes);
when the failure carries no such named error (transient: RPC failure,
timeout) the storage is left untouched, so the voucher remains unclaimed
and eligible for retry. -/
theorem handleClaimError_classification (d : StorageData) (ch : String)
    (errorName : Option String) (now : Int) :
    (∀ n, errorName = some n → n ∈ PERMANENT_CLAIM_ERRORS →
      Drain.handleClaimError d ch errorName now =
          Storage.markClaimed d ch "0x0" now ∧
      (∀ v ∈ (Drain.handleClaimError d ch errorName now).vouchers,
        v.channelId = ch → v.claimed = true) ∧
      (Storage.getHighestVoucherPerChannel
        (Drain.handleClaimError d ch errorName now)).lookup ch = none) ∧
    (∀ n, errorName = some n → n ∉ PERMANENT_CLAIM_ERRORS →
      Drain.handleClaimError d ch errorName now = d) ∧
    (errorName = none → Drain.handleClaimError d ch errorName now = d) := by
  refine ⟨?_, ?_, ?_⟩
  · intro n hn hmem
    have he : Drain.handleClaimError d ch errorName now =
        Storage.markClaimed d ch "0x0" now := by
      unfold Drain.handleClaimError
      rw [hn]
      dsimp only
      rw [if_pos (by simpa using hmem)]
    refine ⟨he, ?_, ?_⟩
    · rw [he]
      exact markClaimed_allClaimed d ch "0x0" now
    · rw [he]
      exact markClaimed_highest_lookup_none d ch "0x0" now
  · intro n hn hnotmem
    unfold Drain.handleClaimError
    rw [hn]
    dsimp only
    rw [if_neg (by simpa using hnotmem)]
  · intro hn
    unfold Drain.handleClaimError
    rw [hn]

/-- Witness for `handleClaimError_classification`: the named error
`InvalidAmount` dead-letters a one-voucher channel, while an unnamed RPC
failure and a non-permanent name leave storage untouched. -/
theorem handleClaimError_classification_witness :
    (Drain.handleClaimError
      { vouchers := [{ channelId := "0x01", amount := 10, nonce := 1,
                       signature := "s", consumer := "0xc1", receivedAt := 0,
                       claimed := false, claimedAt := none, claimTxHash := none }],
        channels := [], totalEarned := "0", totalClaimed := "0" }
      "0x01" (some "InvalidAmount") 5 =
      Storage.markClaimed
        { vouchers := [{ channelId := "0x01", amount := 10, nonce := 1,
                         signature := "s", consumer := "0xc1", receivedAt := 0,
                         claimed := false, claimedAt := none, claimTxHash := none }],
          channels := [], totalEarned := "0", totalClaimed := "0" }
        "0x01" "0x0" 5) ∧
    (Drain.handleClaimError
      { vouchers := [{ channelId := "0x01", amount := 10, nonce := 1,
                       signature := "s", consumer := "0xc1", receivedAt := 0,
                       claimed := false, claimedAt := none, claimTxHash := none }],
        channels := [], totalEarned := "0", totalClaimed := "0" }
      "0x01" (some "http timeout") 5 =
      { vouchers := [{ channelId := "0x01", amount := 10, nonce := 1,
                       signature := "s", consumer := "0xc1", receivedAt := 0,
                       claimed := false, claimedAt := none, claimTxHash := none }],
        channels := [], totalEarned := "0", totalClaimed := "0" }) ∧
    (Drain.handleClaimError
      { vouchers := [{ channelId := "0x01", amount := 10, nonce := 1,
                       signature := "s", consumer := "0xc1", receivedAt := 0,
                       claimed := false, claimedAt := none, claimTxHash := none }],
        channels := [], totalEarned := "0", totalClaimed := "0" }
      "0x01" none 5 =
      { vouchers := [{ channelId := "0x01", amount := 10, nonce := 1,
                       signature := "s", consumer := "0xc1", receivedAt := 0,
                       claimed := false, claimedAt := none, claimTxHash := none }],
        channels := [], totalEarned := "0", totalClaimed := "0" }) := by
  refine ⟨?_, ?_, ?_⟩
  · exact ((handleClaimError_classification _ "0x01" (some "InvalidAmount") 5).1
      "InvalidAmount" rfl (by decide)).1
  · exact (handleClaimError_classification _ "0x01" (some "http timeout") 5).2.1
      "http timeout" rfl (by decide)
  · exact (handleClaimError_classification _ "0x01" none 5).2.2 rfl

/-! ## Claim-loop lemmas -/

theorem markClaimed_preserves_allClaimed (d : StorageData) (ch tx : String)
    (now : Int) (c : String) (h : Storage.AllClaimed d c) :
    Storage.AllClaimed (Storage.markClaimed d ch tx now) c := by
  intro v hv hvc
  unfold Storage.markClaimed at hv
  simp only [List.mem_map] at hv
  obtain ⟨v0, hv0, rfl⟩ := hv
  have hch : v0.channelId = c := by
    rw [← markVoucher_channelId ch tx now v0]
    exact hvc
  have hcl := h v0 hv0 hch
  rw [markVoucher_of_claimed ch tx now v0 hcl]
  exact hcl

theorem handleClaimError_preserves_allClaimed (d : StorageData) (ch : String)
    (errorName : Option String) (now : Int) (c : String)
    (h : Storage.AllClaimed d c) :
    Storage.AllClaimed (Drain.handleClaimError d ch errorName now) c := by
  unfold Drain.handleClaimError
  cases errorName with
  | none => exact h
  | some n =>
      dsimp only
      split_ifs with hm
      · exact markClaimed_preserves_allClaimed d ch "0x0" now c h
      · exact h

theorem handleClaimError_channels (d : StorageData) (ch : String)
    (errorName : Option String) (now : Int) :
    (Drain.handleClaimError d ch errorName now).channels = d.channels := by
  unfold Drain.handleClaimError
  cases errorName with
  | none => rfl
  | some n =>
      dsimp only
      split_ifs <;> rfl

theorem claimStep_channels (claimThreshold : Int) (forceAll : Bool)
    (getBalance : String → Option Int)
    (writeClaim : String → Int → Int → String → Except (Option String) String)
    (now : Int) (acc : StorageData × List (String × String))
    (e : String × StoredVoucher) :
    (Drain.claimStep claimThreshold forceAll getBalance writeClaim now acc
      e).1.channels = acc.1.channels := by
  unfold Drain.claimStep
  dsimp only
  split_ifs <;> try rfl
  cases writeClaim e.2.channelId e.2.amount e.2.nonce e.2.signature with
  | ok hash => rfl
  | error errorName => exact handleClaimError_channels acc.1 e.1 errorName now

theorem claimStep_preserves_allClaimed (claimThreshold : Int) (forceAll : Bool)
    (getBalance : String → Option Int)
    (writeClaim : String → Int → Int → String → Except (Option String) String)
    (now : Int) (acc : StorageData × List (String × String))
    (e : String × StoredVoucher) (c : String)
    (h : Storage.AllClaimed acc.1 c) :
    Storage.AllClaimed (Drain.claimStep claimThreshold forceAll getBalance
      writeClaim now acc e).1 c := by
  unfold Drain.claimStep
  dsimp only
  split_ifs
  · exact h
  · exact markClaimed_preserves_allClaimed acc.1 e.1 "0x0" now c h
  · cases writeClaim e.2.channelId e.2.amount e.2.nonce e.2.signature with
    | ok hash => exact markClaimed_preserves_allClaimed acc.1 e.1 hash now c h
    | error errorName =>
        exact handleClaimError_preserves_allClaimed acc.1 e.1 errorName now c h

theorem claimStep_txs_mono (claimThreshold : Int) (forceAll : Bool)
    (getBalance : String → Option Int)
    (writeClaim : String → Int → Int → String → Except (Option String) String)
    (now : Int) (acc : StorageData × List (String × String))
    (e : String × StoredVoucher) (x : String × String) (hx : x ∈ acc.2) :
    x ∈ (Drain.claimStep claimThreshold forceAll getBalance writeClaim now acc
      e).2 := by
  unfold Drain.claimStep
  dsimp only
  split_ifs
  · exact hx
  · exact hx
  · cases writeClaim e.2.channelId e.2.amount e.2.nonce e.2.signature with
    | ok hash => exact List.mem_append_left _ hx
    | error errorName => exact hx

/-- Any transaction a `claimStep` adds is for its own entry's channel, and
that channel is fully claimed in the step's output storage. -/
theorem claimStep_tx_cases (claimThreshold : Int) (forceAll : Bool)
    (getBalance : String → Option Int)
    (writeClaim : String → Int → Int → String → Except (Option String) String)
    (now : Int) (acc : StorageData × List (String × String))
    (e : String × StoredVoucher) (c h : String)
    (hmem : (c, h) ∈ (Drain.claimStep claimThreshold forceAll getBalance
      writeClaim now acc e).2) :
    (c, h) ∈ acc.2 ∨
    (c = e.1 ∧ Storage.AllClaimed (Drain.claimStep claimThreshold forceAll
      getBalance writeClaim now acc e).1 c) := by
  unfold Drain.claimStep at hmem ⊢
  dsimp only at hmem ⊢
  split_ifs at hmem ⊢
  · exact Or.inl hmem
  · exact Or.inl hmem
  · cases hwc : writeClaim e.2.channelId e.2.amount e.2.nonce e.2.signature with
    | ok hash =>
        rw [hwc] at hmem
        dsimp only at hmem
        rw [List.mem_append] at hmem
        rcases hmem with hmem | hmem
        · exact Or.inl hmem
        · simp only [List.mem_singleton, Prod.mk.injEq] at hmem
          obtain ⟨rfl, rfl⟩ := hmem
          exact Or.inr ⟨rfl, markClaimed_allClaimed acc.1 e.1 _ now⟩
    | error errorName =>
        rw [hwc] at hmem
        exact Or.inl hmem

theorem claimFold_preserves_allClaimed (claimThreshold : Int) (forceAll : Bool)
    (getBalance : String → Option Int)
    (writeClaim : String → Int → Int → String → Except (Option String) String)
    (now : Int) (c : String) :
    ∀ (l : List (String × StoredVoucher))
      (acc : StorageData × List (String × String)),
    Storage.AllClaimed acc.1 c →
    Storage.AllClaimed (l.foldl (Drain.claimStep claimThreshold forceAll
      getBalance writeClaim now) acc).1 c := by
  intro l
  induction l with
  | nil => intro acc h; exact h
  | cons e t ih =>
      intro acc h
      rw [List.foldl_cons]
      exact ih _ (claimStep_preserves_allClaimed claimThreshold forceAll
        getBalance writeClaim now acc e c h)

theorem claimFold_txs_mono (claimThreshold : Int) (forceAll : Bool)
    (getBalance : String → Option Int)
    (writeClaim : String → Int → Int → String → Except (Option String) String)
    (now : Int) (x : String × String) :
    ∀ (l : List (String × StoredVoucher))
      (acc : StorageData × List (String × String)),
    x ∈ acc.2 →
    x ∈ (l.foldl (Drain.claimStep claimThreshold forceAll getBalance writeClaim
      now) acc).2 := by
  intro l
  induction l with
  | nil => intro acc h; exact h
  | cons e t ih =>
      intro acc h
      rw [List.foldl_cons]
      exact ih _ (claimStep_txs_mono claimThreshold forceAll getBalance
        writeClaim now acc e x h)

/-- A transaction in the output of the claim fold was either already in
the accumulator or its channel is fully claimed in the final storage. -/
theorem claimFold_tx_allClaimed (claimThreshold : Int) (forceAll : Bool)
    (getBalance : String → Option Int)
    (writeClaim : String → Int → Int → String → Except (Option String) String)
    (now : Int) (c h : String) :
    ∀ (l : List (String × StoredVoucher))
      (acc : StorageData × List (String × String)),
    (c, h) ∈ (l.foldl (Drain.claimStep claimThreshold forceAll getBalance
      writeClaim now) acc).2 →
    (c, h) ∈ acc.2 ∨
    Storage.AllClaimed (l.foldl (Drain.claimStep claimThreshold forceAll
      getBalance writeClaim now) acc).1 c := by
  intro l
  induction l with
  | nil => intro acc hm; exact Or.inl hm
  | cons e t ih =>
      intro acc hm
      rw [List.foldl_cons] at hm ⊢
      rcases ih _ hm with hm' | hall
      · rcases claimStep_tx_cases claimThreshold forceAll getBalance writeClaim
            now acc e c h hm' with hin | ⟨-, hall⟩
        · exact Or.inl hin
        · exact Or.inr (claimFold_preserves_allClaimed claimThreshold forceAll
            getBalance writeClaim now c t _ hall)
      · exact Or.inr hall

/-- A transaction in the output of the claim fold is for a channel that
keys the folded entry list (or was already in the accumulator). -/
theorem claimFold_tx_key (claimThreshold : Int) (forceAll : Bool)
    (getBalance : String → Option Int)
    (writeClaim : String → Int → Int → String → Except (Option String) String)
    (now : Int) (c h : String) :
    ∀ (l : List (String × StoredVoucher))
      (acc : StorageData × List (String × String)),
    (c, h) ∈ (l.foldl (Drain.claimStep claimThreshold forceAll getBalance
      writeClaim now) acc).2 →
    (c, h) ∈ acc.2 ∨ ∃ v, (c, v) ∈ l := by
  intro l
  induction l with
  | nil => intro acc hm; exact Or.inl hm
  | cons e t ih =>
      intro acc hm
      rw [List.foldl_cons] at hm
      rcases ih _ hm with hm' | ⟨v, hv⟩
      · rcases claimStep_tx_cases claimThreshold forceAll getBalance writeClaim
            now acc e c h hm' with hin | ⟨hc, -⟩
        · exact Or.inl hin
        · exact Or.inr ⟨e.2, by rw [hc]; simp⟩
      · exact Or.inr ⟨v, List.mem_cons_of_mem _ hv⟩

theorem mapSet_mem (l : List (String × StoredVoucher)) (k : String)
    (v : StoredVoucher) (p : String × StoredVoucher)
    (h : p ∈ Storage.mapSet l k v) : p ∈ l ∨ p = (k, v) := by
  induction l with
  | nil => simpa [Storage.mapSet] using h
  | cons q t ih =>
      obtain ⟨k0, v0⟩ := q
      unfold Storage.mapSet at h
      by_cases h0 : (k0 == k) = true
      · rw [if_pos h0] at h
        rcases List.mem_cons.mp h with h | h
        · exact Or.inr h
        · exact Or.inl (List.mem_cons_of_mem _ h)
      · rw [if_neg h0] at h
        rcases List.mem_cons.mp h with h | h
        · exact Or.inl (h ▸ List.mem_cons_self _ _)
        · rcases ih h with h | h
          · exact Or.inl (List.mem_cons_of_mem _ h)
          · exact Or.inr h

/-- Every entry of the highest-voucher map is witnessed by an unclaimed
stored voucher of that channel. -/
theorem highest_key_unclaimed (d : StorageData) (c : String)
    (w : StoredVoucher) (h : (c, w) ∈ Storage.getHighestVoucherPerChannel d) :
    ∃ v0 ∈ d.vouchers, v0.channelId = c ∧ v0.claimed = false := by
  unfold Storage.getHighestVoucherPerChannel at h
  suffices haux : ∀ (vs : List StoredVoucher)
      (acc : List (String × StoredVoucher)),
      (c, w) ∈ vs.foldl Storage.highestStep acc →
      (c, w) ∈ acc ∨ ∃ v0 ∈ vs, v0.channelId = c ∧ v0.claimed = false by
    rcases haux d.vouchers [] h with h' | h'
    · simp at h'
    · exact h'
  intro vs
  induction vs with
  | nil => intro acc hm; exact Or.inl hm
  | cons v t ih =>
      intro acc hm
      rw [List.foldl_cons] at hm
      rcases ih _ hm with hm' | ⟨v0, hv0, hc0, hcl0⟩
      · unfold Storage.highestStep at hm'
        split_ifs at hm' with hc
        · exact Or.inl hm'
        · cases hl : acc.lookup v.channelId with
          | none =>
              rw [hl] at hm'
              dsimp only at hm'
              rcases mapSet_mem acc v.channelId v _ hm' with h' | h'
              · exact Or.inl h'
              · have hcv : v.channelId = c := by
                  have := congrArg Prod.fst h'
                  simpa using this.symm
                exact Or.inr ⟨v, List.mem_cons_self _ _, hcv, by simpa using hc⟩
          | some ex =>
              rw [hl] at hm'
              dsimp only at hm'
              split_ifs at hm' with hgt
              · rcases mapSet_mem acc v.channelId v _ hm' with h' | h'
                · exact Or.inl h'
                · have hcv : v.channelId = c := by
                    have := congrArg Prod.fst h'
                    simpa using this.symm
                  exact Or.inr ⟨v, List.mem_cons_self _ _, hcv, by simpa using hc⟩
              · exact Or.inl hm'
      · exact Or.inr ⟨v0, List.mem_cons_of_mem _ hv0, hc0, hcl0⟩

/-! ## C6: claiming is idempotent -/

/-- C6: if a `claimPayments` pass produced a claim transaction for channel
`ch` (the claim succeeded, so the channel was marked claimed), a second
`claimPayments` pass on the resulting storage — under any threshold,
force flag, balance oracle and wallet behaviour — produces no new claim
transaction for `ch`: after the first pass the channel has no unclaimed
voucher left, hence no entry in the highest-voucher map the second pass
iterates. -/
theorem claimPayments_idempotent (threshold1 threshold2 : Int)
    (gb1 gb2 : String → Option Int)
    (wc1 wc2 : String → Int → Int → String → Except (Option String) String)
    (now1 now2 : Int) (d : StorageData) (f1 f2 : Bool) (ch h : String)
    (hfirst : (ch, h) ∈ (Drain.claimPayments threshold1 gb1 wc1 now1 d f1).2) :
    ∀ h', (ch, h') ∉ (Drain.claimPayments threshold2 gb2 wc2 now2
      (Drain.claimPayments threshold1 gb1 wc1 now1 d f1).1 f2).2 := by
  intro h' hsecond
  have hall : Storage.AllClaimed
      (Drain.claimPayments threshold1 gb1 wc1 now1 d f1).1 ch := by
    unfold Drain.claimPayments at hfirst ⊢
    rcases claimFold_tx_allClaimed threshold1 f1 gb1 wc1 now1 ch h _ (d, [])
        hfirst with hin | hall
    · simp at hin
    · exact hall
  unfold Drain.claimPayments at hsecond
  rcases claimFold_tx_key threshold2 f2 gb2 wc2 now2 ch h' _ (_, [])
      hsecond with hin | ⟨v, hv⟩
  · simp at hin
  · obtain ⟨v0, hv0, hc0, hcl0⟩ := highest_key_unclaimed _ ch v hv
    have := hall v0 hv0 hc0
    rw [this] at hcl0
    exact absurd hcl0 (by simp)

/-- Witness for `claimPayments_idempotent`: a successful first pass over a
one-voucher channel; the second pass emits nothing for that channel. -/
theorem claimPayments_idempotent_witness :
    ("0x01", "0xother") ∉ (Drain.claimPayments 5 (fun _ => none)
      (fun _ _ _ _ => Except.ok "0xh") 1
      (Drain.claimPayments 5 (fun _ => none)
        (fun _ _ _ _ => Except.ok "0xh") 0
        { vouchers := [{ channelId := "0x01", amount := 10, nonce := 1,
                         signature := "s", consumer := "0xc1", receivedAt := 0,
                         claimed := false, claimedAt := none,
                         claimTxHash := none }],
          channels := [], totalEarned := "0", totalClaimed := "0" }
        false).1 false).2 :=
  claimPayments_idempotent 5 5 (fun _ => none) (fun _ => none)
    (fun _ _ _ _ => Except.ok "0xh") (fun _ _ _ _ => Except.ok "0xh") 0 1
    { vouchers := [{ channelId := "0x01", amount := 10, nonce := 1,
                     signature := "s", consumer := "0xc1", receivedAt := 0,
                     claimed := false, claimedAt := none, claimTxHash := none }],
      channels := [], totalEarned := "0", totalClaimed := "0" }
    false false "0x01" "0xh" (by decide) "0xother"

/-! ## Auto-claim scheduler lemmas -/

theorem markClaimed_vouchers_filter_keep (d : StorageData) (c tx : String)
    (now : Int) (ch : String) (h : c ≠ ch) :
    (Storage.markClaimed d c tx now).vouchers.filter
        (fun v => v.channelId == ch) =
      d.vouchers.filter (fun v => v.channelId == ch) := by
  unfold Storage.markClaimed
  induction d.vouchers with
  | nil => rfl
  | cons v t ih =>
      rw [List.map_cons]
      by_cases hch : v.channelId = ch
      · have hnc : v.channelId ≠ c := by rw [hch]; exact Ne.symm h
        rw [markVoucher_of_ne c tx now v hnc]
        rw [List.filter_cons_of_pos (by simp [hch]),
          List.filter_cons_of_pos (by simp [hch])]
        rw [ih]
      · rw [List.filter_cons_of_neg (by simp [markVoucher_channelId, hch]),
          List.filter_cons_of_neg (by simp [hch])]
        exact ih

theorem handleClaimError_vouchers_filter_keep (d : StorageData) (c : String)
    (errorName : Option String) (now : Int) (ch : String) (h : c ≠ ch) :
    (Drain.handleClaimError d c errorName now).vouchers.filter
        (fun v => v.channelId == ch) =
      d.vouchers.filter (fun v => v.channelId == ch) := by
  unfold Drain.handleClaimError
  cases errorName with
  | none => rfl
  | some n =>
      dsimp only
      split_ifs
      · exact markClaimed_vouchers_filter_keep d c "0x0" now ch h
      · rfl

theorem expStep_channels (buffer : Int) (getBalance : String → Option Int)
    (writeClaim : String → Int → Int → String → Except (Option String) String)
    (now : Int) (acc : StorageData × List (String × String))
    (e : String × StoredVoucher) :
    (Drain.claimExpiringStep buffer getBalance writeClaim now acc
      e).1.channels = acc.1.channels := by
  unfold Drain.claimExpiringStep
  dsimp only
  cases Storage.getChannel acc.1 e.1 with
  | none => rfl
  | some channel =>
      dsimp only
      split_ifs <;> try rfl
      cases writeClaim e.2.channelId e.2.amount e.2.nonce e.2.signature with
      | ok hash => rfl
      | error errorName => exact handleClaimError_channels acc.1 e.1 errorName now

theorem expStep_txs_mono (buffer : Int) (getBalance : String → Option Int)
    (writeClaim : String → Int → Int → String → Except (Option String) String)
    (now : Int) (acc : StorageData × List (String × String))
    (e : String × StoredVoucher) (x : String × String) (hx : x ∈ acc.2) :
    x ∈ (Drain.claimExpiringStep buffer getBalance writeClaim now acc e).2 := by
  unfold Drain.claimExpiringStep
  dsimp only
  cases Storage.getChannel acc.1 e.1 with
  | none => exact hx
  | some channel =>
      dsimp only
      split_ifs <;> try exact hx
      cases writeClaim e.2.channelId e.2.amount e.2.nonce e.2.signature with
      | ok hash => exact List.mem_append_left _ hx
      | error errorName => exact hx

theorem expFold_txs_mono (buffer : Int) (getBalance : String → Option Int)
    (writeClaim : String → Int → Int → String → Except (Option String) String)
    (now : Int) (x : String × String) :
    ∀ (l : List (String × StoredVoucher))
      (acc : StorageData × List (String × String)),
    x ∈ acc.2 →
    x ∈ (l.foldl (Drain.claimExpiringStep buffer getBalance writeClaim now)
      acc).2 := by
  intro l
  induction l with
  | nil => intro acc h; exact h
  | cons e t ih =>
      intro acc h
      rw [List.foldl_cons]
      exact ih _ (expStep_txs_mono buffer getBalance writeClaim now acc e x h)

/-- A step of the scheduler pass for a channel other than `ch` leaves
`ch`'s vouchers untouched and adds no transaction for `ch`. -/
theorem expStep_other (buffer : Int) (getBalance : String → Option Int)
    (writeClaim : String → Int → Int → String → Except (Option String) String)
    (now : Int) (acc : StorageData × List (String × String))
    (e : String × StoredVoucher) (ch : String) (hne : e.1 ≠ ch) :
    (Drain.claimExpiringStep buffer getBalance writeClaim now acc
        e).1.vouchers.filter (fun v => v.channelId == ch) =
      acc.1.vouchers.filter (fun v => v.channelId == ch) ∧
    ∀ x ∈ (Drain.claimExpiringStep buffer getBalance writeClaim now acc e).2,
      x ∈ acc.2 ∨ x.1 ≠ ch := by
  unfold Drain.claimExpiringStep
  dsimp only
  cases Storage.getChannel acc.1 e.1 with
  | none => exact ⟨rfl, fun x hx => Or.inl hx⟩
  | some channel =>
      dsimp only
      split_ifs
      · exact ⟨rfl, fun x hx => Or.inl hx⟩
      · exact ⟨rfl, fun x hx => Or.inl hx⟩
      · exact ⟨rfl, fun x hx => Or.inl hx⟩
      · exact ⟨markClaimed_vouchers_filter_keep acc.1 e.1 "0x0" now ch hne,
          fun x hx => Or.inl hx⟩
      · cases writeClaim e.2.channelId e.2.amount e.2.nonce e.2.signature with
        | ok hash =>
            refine ⟨markClaimed_vouchers_filter_keep acc.1 e.1 hash now ch hne, ?_⟩
            intro x hx
            rw [List.mem_append] at hx
            rcases hx with hx | hx
            · exact Or.inl hx
            · simp only [List.mem_singleton] at hx
              subst hx
              exact Or.inr hne
        | error errorName =>
            exact ⟨handleClaimError_vouchers_filter_keep acc.1 e.1 errorName
              now ch hne, fun x hx => Or.inl hx⟩

theorem expFold_channels (buffer : Int) (getBalance : String → Option Int)
    (writeClaim : String → Int → Int → String → Except (Option String) String)
    (now : Int) :
    ∀ (l : List (String × StoredVoucher))
      (acc : StorageData × List (String × String)),
    (l.foldl (Drain.claimExpiringStep buffer getBalance writeClaim now)
      acc).1.channels = acc.1.channels := by
  intro l
  induction l with
  | nil => intro acc; rfl
  | cons e t ih =>
      intro acc
      rw [List.foldl_cons]
      rw [ih _, expStep_channels]

/-- If a due channel's entry is in the iterated list, the scheduler fold
emits its claim transaction. -/
theorem expFold_attempts (buffer : Int) (getBalance : String → Option Int)
    (writeClaim : String → Int → Int → String → Except (Option String) String)
    (now : Int) (d : StorageData) (ch : String) (cs : ChannelState)
    (v : StoredVoucher) (h : String)
    (hcsd : Storage.getChannel d ch = some cs)
    (hexp : cs.expiry ≠ 0)
    (hdue : ¬(cs.expiry - now > buffer))
    (hvch : v.channelId = ch)
    (hpos : ¬(v.amount ≤ 0))
    (hbal : ¬(getBalance ch = some 0))
    (hwc : writeClaim ch v.amount v.nonce v.signature = Except.ok h) :
    ∀ (l : List (String × StoredVoucher))
      (acc : StorageData × List (String × String)),
    (ch, v) ∈ l → acc.1.channels = d.channels →
    (ch, h) ∈ (l.foldl (Drain.claimExpiringStep buffer getBalance writeClaim
      now) acc).2 := by
  intro l
  induction l with
  | nil => intro acc hm; simp at hm
  | cons e t ih =>
      intro acc hm hch
      rw [List.foldl_cons]
      rcases List.mem_cons.mp hm with he | hm'
      · have hgc : Storage.getChannel acc.1 ch = some cs := by
          unfold Storage.getChannel at hcsd ⊢
          rw [hch]
          exact hcsd
        have hstep : Drain.claimExpiringStep buffer getBalance writeClaim now
            acc e = (Storage.markClaimed acc.1 ch h now, acc.2 ++ [(ch, h)]) := by
          rw [← he]
          unfold Drain.claimExpiringStep
          dsimp only
          rw [hgc]
          dsimp only
          rw [if_neg (by simpa using hexp), if_neg hdue, if_neg hpos]
          rw [hvch, if_neg hbal, hwc]
        rw [hstep]
        exact expFold_txs_mono buffer getBalance writeClaim now (ch, h) t _
          (by simp)
      · exact ih _ hm' (by rw [expStep_channels]; exact hch)

/-- A channel whose cached expiry is farther away than the buffer is left
completely alone by the scheduler fold. -/
theorem expFold_skips (buffer : Int) (getBalance : String → Option Int)
    (writeClaim : String → Int → Int → String → Except (Option String) String)
    (now : Int) (d : StorageData) (ch : String) (cs : ChannelState)
    (hcsd : Storage.getChannel d ch = some cs)
    (hexp : cs.expiry ≠ 0)
    (hfar : cs.expiry - now > buffer) :
    ∀ (l : List (String × StoredVoucher))
      (acc : StorageData × List (String × String)),
    acc.1.channels = d.channels →
    ((l.foldl (Drain.claimExpiringStep buffer getBalance writeClaim now)
        acc).1.vouchers.filter (fun v => v.channelId == ch) =
      acc.1.vouchers.filter (fun v => v.channelId == ch)) ∧
    (∀ x ∈ (l.foldl (Drain.claimExpiringStep buffer getBalance writeClaim now)
        acc).2, x ∈ acc.2 ∨ x.1 ≠ ch) := by
  intro l
  induction l with
  | nil => intro acc _; exact ⟨rfl, fun x hx => Or.inl hx⟩
  | cons e t ih =>
      intro acc hch
      rw [List.foldl_cons]
      by_cases he : e.1 = ch
      · have hstep : Drain.claimExpiringStep buffer getBalance writeClaim now
            acc e = acc := by
          unfold Drain.claimExpiringStep
          dsimp only
          have hgc : Storage.getChannel acc.1 e.1 = some cs := by
            unfold Storage.getChannel at hcsd ⊢
            rw [hch, he]
            exact hcsd
          rw [hgc]
          dsimp only
          rw [if_neg (by simpa using hexp), if_pos hfar]
        rw [hstep]
        exact ih acc hch
      · obtain ⟨hfil, htx⟩ := expStep_other buffer getBalance writeClaim now
          acc e ch he
        have hch' : (Drain.claimExpiringStep buffer getBalance writeClaim now
            acc e).1.channels = d.channels := by
          rw [expStep_channels]
          exact hch
        obtain ⟨ihfil, ihtx⟩ := ih _ hch'
        refine ⟨by rw [ihfil, hfil], ?_⟩
        intro x hx
        rcases ihtx x hx with hx' | hne
        · rcases htx x hx' with hx'' | hne
          · exact Or.inl hx''
          · exact Or.inr hne
        · exact Or.inr hne

/-! ## C7: the expiry-buffer claim policy -/

/-- C7: on a scheduler pass with buffer `bufferSeconds`, every channel with
a cached (truthy) expiry satisfying `expiry - now ≤ bufferSeconds` and a
positive unclaimed voucher amount has its claim attempted — the embedded
`claimExpiring` consults no claim threshold at all, so this holds however
small the amount — and the claim transaction is emitted whenever the
balance pre-check does not read zero and the wallet write succeeds; a
channel with `expiry - now > bufferSeconds` is not claimed by that pass:
no transaction is emitted for it and its stored vouchers are untouched. -/
theorem claimExpiring_policy (bufferSeconds : Int)
    (getBalance : String → Option Int)
    (writeClaim : String → Int → Int → String → Except (Option String) String)
    (now : Int) (d : StorageData) (ch : String) (cs : ChannelState)
    (hcs : Storage.getChannel d ch = some cs)
    (hexp : cs.expiry ≠ 0) :
    (cs.expiry - now ≤ bufferSeconds →
      ∀ v h, (ch, v) ∈ Storage.getHighestVoucherPerChannel d →
        v.channelId = ch → 0 < v.amount → ¬(getBalance ch = some 0) →
        writeClaim ch v.amount v.nonce v.signature = Except.ok h →
        (ch, h) ∈ (Drain.claimExpiring bufferSeconds getBalance writeClaim
          now d).2) ∧
    (cs.expiry - now > bufferSeconds →
      (∀ h, (ch, h) ∉ (Drain.claimExpiring bufferSeconds getBalance writeClaim
        now d).2) ∧
      (Drain.claimExpiring bufferSeconds getBalance writeClaim
          now d).1.vouchers.filter (fun v => v.channelId == ch) =
        d.vouchers.filter (fun v => v.channelId == ch)) := by
  constructor
  · intro hdue v h hv hvch hpos hbal hwc
    unfold Drain.claimExpiring
    exact expFold_attempts bufferSeconds getBalance writeClaim now d ch cs v h
      hcs hexp (by omega) hvch (by omega) hbal hwc
      (Storage.getHighestVoucherPerChannel d) (d, []) hv rfl
  · intro hfar
    obtain ⟨hfil, htx⟩ := expFold_skips bufferSeconds getBalance writeClaim
      now d ch cs hcs hexp hfar (Storage.getHighestVoucherPerChannel d)
      (d, []) rfl
    refine ⟨?_, hfil⟩
    intro h hmem
    unfold Drain.claimExpiring at hmem
    rcases htx (ch, h) hmem with hx | hne
    · simp at hx
    · exact hne rfl

/-- Witness for `claimExpiring_policy`: a channel expiring in 20 seconds
with buffer 50 is claimed even with a tiny voucher amount; the same
channel 90 seconds before expiry with buffer 50 is left alone. -/
theorem claimExpiring_policy_witness :
    (("0x01", "0xh") ∈ (Drain.claimExpiring 50 (fun _ => none)
      (fun _ _ _ _ => Except.ok "0xh") 80
      { vouchers := [{ channelId := "0x01", amount := 10, nonce := 1,
                       signature := "s", consumer := "0xc1", receivedAt := 0,
                       claimed := false, claimedAt := none,
                       claimTxHash := none }],
        channels := [("0x01",
          { channelId := "0x01", consumer := "0xc1", deposit := 1000,
            totalCharged := 10, expiry := 100, lastVoucher := none,
            createdAt := 0, lastActivityAt := 0 })],
        totalEarned := "0", totalClaimed := "0" }).2) ∧
    (("0x01", "0xh") ∉ (Drain.claimExpiring 50 (fun _ => none)
      (fun _ _ _ _ => Except.ok "0xh") 10
      { vouchers := [{ channelId := "0x01", amount := 10, nonce := 1,
                       signature := "s", consumer := "0xc1", receivedAt := 0,
                       claimed := false, claimedAt := none,
                       claimTxHash := none }],
        channels := [("0x01",
          { channelId := "0x01", consumer := "0xc1", deposit := 1000,
            totalCharged := 10, expiry := 100, lastVoucher := none,
            createdAt := 0, lastActivityAt := 0 })],
        totalEarned := "0", totalClaimed := "0" }).2) := by
  constructor
  · exact (claimExpiring_policy 50 (fun _ => none)
      (fun _ _ _ _ => Except.ok "0xh") 80 _ "0x01"
      { channelId := "0x01", consumer := "0xc1", deposit := 1000,
        totalCharged := 10, expiry := 100, lastVoucher := none,
        createdAt := 0, lastActivityAt := 0 }
      (by decide) (by decide)).1 (by decide)
      { channelId := "0x01", amount := 10, nonce := 1, signature := "s",
        consumer := "0xc1", receivedAt := 0, claimed := false,
        claimedAt := none, claimTxHash := none }
      "0xh" (by decide) (by decide) (by decide) (by decide) rfl
  · exact ((claimExpiring_policy 50 (fun _ => none)
      (fun _ _ _ _ => Except.ok "0xh") 10 _ "0x01"
      { channelId := "0x01", consumer := "0xc1", deposit := 1000,
        totalCharged := 10, expiry := 100, lastVoucher := none,
        createdAt := 0, lastActivityAt := 0 }
      (by decide) (by decide)).2 (by decide)).1 "0xh"

/-! ## Serialization round-trip lemmas -/

theorem decDigits_lt_ten : ∀ (fuel n : Nat), ∀ d ∈ Storage.decDigits fuel n,
    d < 10 := by
  intro fuel
  induction fuel with
  | zero => intro n d hd; simp [Storage.decDigits] at hd
  | succ f ih =>
      intro n d hd
      cases n with
      | zero => simp [Storage.decDigits] at hd
      | succ m =>
          rw [Storage.decDigits] at hd
          rcases List.mem_cons.mp hd with h | h
          · rw [h]
            exact Nat.mod_lt _ (by omega)
          · exact ih _ d h

theorem ofDigits_decDigits : ∀ (fuel n : Nat), n ≤ fuel →
    Nat.ofDigits 10 (Storage.decDigits fuel n) = n := by
  intro fuel
  induction fuel with
  | zero => intro n h; interval_cases n; rfl
  | succ f ih =>
      intro n h
      cases n with
      | zero => rfl
      | succ m =>
          rw [Storage.decDigits, Nat.ofDigits_cons]
          have hdiv : (m + 1) / 10 ≤ f := by
            have := Nat.div_lt_self (by omega : 0 < m + 1) (by omega : 1 < 10)
            omega
          rw [ih _ hdiv]
          omega

theorem charDigit_digitChar (d : Nat) (h : d < 10) :
    Storage.charDigit (Storage.digitChar d) = d := by
  interval_cases d <;> rfl

theorem digitChar_ne_dash (d : Nat) (h : d < 10) :
    (Storage.digitChar d == '-') = false := by
  interval_cases d <;> rfl

theorem natDecimalChars_all_digits (n : Nat) :
    ∀ c ∈ Storage.natDecimalChars n, ∃ d, d < 10 ∧ c = Storage.digitChar d := by
  intro c hc
  unfold Storage.natDecimalChars at hc
  split_ifs at hc with h0
  · simp only [List.mem_singleton] at hc
    exact ⟨0, by omega, by rw [hc]; rfl⟩
  · rw [List.mem_reverse] at hc
    rw [List.mem_map] at hc
    obtain ⟨d, hd, rfl⟩ := hc
    exact ⟨d, decDigits_lt_ten n n d hd, rfl⟩

theorem natDecimalChars_ne_nil (n : Nat) : Storage.natDecimalChars n ≠ [] := by
  unfold Storage.natDecimalChars
  split_ifs with h0
  · simp
  · cases n with
    | zero => omega
    | succ m =>
        rw [Storage.decDigits]
        simp

theorem decimalToNat_natDecimalChars (n : Nat) :
    Storage.decimalToNat (Storage.natDecimalChars n) = n := by
  unfold Storage.decimalToNat Storage.natDecimalChars
  split_ifs with h0
  · rw [h0]
    rfl
  · rw [List.map_reverse, List.reverse_reverse, List.map_map]
    have hmap : (Storage.decDigits n n).map
        (Storage.charDigit ∘ Storage.digitChar) = Storage.decDigits n n := by
      rw [List.map_congr_left, List.map_id]
      intro d hd
      exact charDigit_digitChar d (decDigits_lt_ten n n d hd)
    rw [hmap]
    exact ofDigits_decDigits n n (le_refl n)

/-- JS decimal round trip: `BigInt(x.toString()) === x`. -/
theorem jsBigInt_bigintToString (i : Int) :
    Storage.jsBigInt (Storage.bigintToString i) = i := by
  unfold Storage.bigintToString Storage.jsBigInt
  split_ifs with hneg
  · dsimp only
    rw [if_pos (by rfl)]
    rw [decimalToNat_natDecimalChars]
    omega
  · cases hl : Storage.natDecimalChars i.natAbs with
    | nil => exact absurd hl (natDecimalChars_ne_nil _)
    | cons c rest =>
        dsimp only
        obtain ⟨d, hd, rfl⟩ := natDecimalChars_all_digits i.natAbs c
          (by rw [hl]; exact List.mem_cons_self _ _)
        rw [if_neg (by rw [digitChar_ne_dash d hd]; simp)]
        rw [← hl, decimalToNat_natDecimalChars]
        omega

theorem loadVoucher_serializeVoucher (v : StoredVoucher) :
    Storage.loadVoucher (Storage.serializeVoucher v) = v := by
  cases v
  simp [Storage.loadVoucher, Storage.serializeVoucher, jsBigInt_bigintToString]

theorem loadChannel_serializeChannel (ch : ChannelState) :
    Storage.loadChannel (Storage.serializeChannel ch) = ch := by
  cases ch with
  | mk channelId consumer deposit totalCharged expiry lastVoucher createdAt
      lastActivityAt =>
      simp only [Storage.loadChannel, Storage.serializeChannel,
        jsBigInt_bigintToString, Option.map_map]
      cases lastVoucher with
      | none => rfl
      | some lv =>
          simp [loadVoucher_serializeVoucher]

/-! ## C9: storage round-trip -/

/-- C9: reloading the serialized storage document (as on process restart)
reconstructs the storage exactly: every voucher and every `ChannelState` —
`deposit`, `totalCharged` and `lastVoucher` bigints included, restored
from their decimal strings — come back equal to what `save` wrote. -/
theorem load_save_roundtrip (d : StorageData) :
    Storage.load (Storage.save d) = d := by
  cases d with
  | mk vouchers channels totalEarned totalClaimed =>
      simp only [Storage.load, Storage.save, List.map_map, StorageData.mk.injEq]
      refine ⟨?_, ?_, trivial, trivial⟩
      · rw [List.map_congr_left, List.map_id]
        intro v hv
        exact loadVoucher_serializeVoucher v
      · rw [List.map_congr_left, List.map_id]
        intro p hp
        have : Storage.loadChannel (Storage.serializeChannel p.2) = p.2 :=
          loadChannel_serializeChannel p.2
        simp [Function.comp, this]

end HS58
